import Mathlib

/-!
Verification development for the Smart_Monitor firmware (`src/main.cpp`).

Embedding conventions:
* C `float` values are modelled as exact rationals (`ℚ`); the code's decimal
  literals (0.15f, 0.22f, 0.42f, 0.68f, 0.7f, 0.85, 0.996f) become the exact
  fractions 3/20, 11/50, 21/50, 17/25, 7/10, 17/20, 249/250.
* `millis()` timestamps are naturals; wraparound of the 32-bit counter is not
  modelled (all comparisons assume monotone, non-wrapping time).
* C `NAN` sentinels (tempC, net_rx, net_tx) are modelled as `Option ℚ` with
  `none` standing for NaN; the integer sentinel defaults (-1) are kept as is.
* A successfully parsed JSON line is modelled as a `Msg` record of optional
  fields (one per recognized key); a line that fails JSON parsing is `none`.
* `random(n)` draws and the `sin`-derived head-bob value are inputs of each
  animation tick (the firmware takes them from the RNG / libm).
-/

/-- Truncating cast of a rational to an integer, as the C `(int)` cast on a
float (rounds toward zero). -/
def intOfQ (q : ℚ) : ℤ := q.num.tdiv q.den

/-- The Arduino `max(a, b)` macro, `((a)>(b)?(a):(b))`, on rationals. -/
def maxQ (a b : ℚ) : ℚ := if b < a then a else b

/-- The clamp pattern `if (x < lo) x = lo; if (x > hi) x = hi;` used after each
smoothing update in `loop`. -/
def clampQ (lo hi x : ℚ) : ℚ := if x < lo then lo else if hi < x then hi else x

/-- `DataState` from main.cpp: the latest decoded metric snapshot.
`cpu = -1`, `ram = -1`, `ram_used = -1`, `uptime = -1`, `diskFreeKB = -1` are
the "absent" sentinels of the source; `tempC`, `net_rx`, `net_tx` use `none`
for the source's `NAN` sentinel. -/
structure DataState where
  cpu : ℚ
  ram : ℤ
  ram_used : ℤ
  tempC : Option ℚ
  host : String
  epoch : ℤ
  uptime : ℤ
  diskFreeKB : ℤ
  net_rx : Option ℚ
  net_tx : Option ℚ
deriving Repr, DecidableEq

/-- One successfully parsed JSON line, projected onto the recognized keys
(`cpu`, `ram`, `ram_used`, `weather.temp`, `host`, `time`, `uptime`,
`disk_free`, `net.rx`, `net.tx`, `app`); `none` marks an absent key. -/
structure Msg where
  cpu : Option ℚ := none
  ram : Option ℤ := none
  ram_used : Option ℤ := none
  temp : Option ℚ := none
  host : Option String := none
  time : Option ℤ := none
  uptime : Option ℤ := none
  disk_free : Option ℤ := none
  net_rx : Option ℚ := none
  net_tx : Option ℚ := none
  app : Option String := none
deriving Repr, DecidableEq

/-- The empty JSON object `{}`: every recognized key absent. -/
def Msg.empty : Msg := {}

/-- `UIState` from main.cpp.  The ratio fields `tgtRamRatio`, `curRamRatio`,
`tgtNetRatio`, `curNetRatio` of the source are named `tgtRam`, `curRam`,
`tgtNet`, `curNet` here; all other field names are the source's. -/
structure UIState where
  hasData : Bool
  tgtCpu : ℚ
  tgtRam : ℚ
  tgtNet : ℚ
  curCpu : ℚ
  curRam : ℚ
  curNet : ℚ
  netMaxKBs : ℚ
  tickerText : String
  tickerX : ℤ
  tickerW : ℤ
  tamaBlink : Bool
  tamaBlinkUntil : ℕ
  tamaNextBlink : ℕ
  tamaMouthPhase : ℕ
  tamaMouthMs : ℕ
  tamaWink : Bool
  tamaWinkUntil : ℕ
  tamaSweat : Bool
  tamaSweatUntil : ℕ
  headBob : ℤ
  tamaSleeping : Bool
  lowLoadSince : ℕ
  sleepStep : ℕ
  sleepMs : ℕ
deriving Repr, DecidableEq

/-- The whole mutable state of the sketch: the two globals `data`, `ui`, the
global `appName`, and the function-static locals of `loop`
(`lastDataMs`, `nextWink`, `nextSweat`, `lastAnim`). -/
structure LoopState where
  data : DataState
  appName : String
  ui : UIState
  lastDataMs : ℕ
  nextWink : ℕ
  nextSweat : ℕ
  lastAnim : ℕ
deriving Repr, DecidableEq

/-- `textWidth` from main.cpp at text size 1: `s.length() * 6`. -/
def textWidth (s : String) : ℤ := 6 * (s.length : ℤ)

/-- `fmtDisk` from main.cpp. -/
def fmtDisk (kb : ℤ) : String :=
  if kb < 0 then "--"
  else
    let mb := kb.tdiv 1024
    if 9999 < mb then toString (mb.tdiv 1024) ++ "GB"
    else toString mb ++ "MB"

/-- `fmtUptime` from main.cpp. -/
def fmtUptime (seconds : ℤ) : String :=
  if seconds < 0 then "--"
  else
    let m := seconds.tdiv 60
    let h := m.tdiv 60
    let d := h.tdiv 24
    let h := h.tmod 24
    let m := m.tmod 60
    (if 0 < d then toString d ++ "d " else "") ++ toString h ++ "h" ++ toString m ++ "m"

/-- The ticker text built at the end of `updateFromJsonLine` (before the
trailing `"   "` padding is appended). -/
def tickerBody (d : DataState) : String :=
  let t := ""
  let t := match d.tempC with
    | some q => t ++ " " ++ toString (intOfQ q) ++ "C"
    | none => t
  let t := if 0 ≤ d.cpu then t ++ "  CPU " ++ toString (intOfQ d.cpu) ++ "%" else t
  let t := if 0 < d.ram ∧ 0 ≤ d.ram_used then
      t ++ "  RAM " ++ toString ((d.ram - d.ram_used).tdiv 1024) ++ "MB" else t
  let t := if 0 ≤ d.diskFreeKB then t ++ "  DISK " ++ fmtDisk d.diskFreeKB else t
  let t := if 0 ≤ d.uptime then t ++ "  UPT " ++ fmtUptime d.uptime else t
  if t.length = 0 then " Smart Monitor" else t

/-- `ui.tickerText` as rebuilt by `updateFromJsonLine`: the body plus the
wrap-around padding. -/
def tickerOf (d : DataState) : String := tickerBody d ++ "   "

/-- The sticky-default merge of one decoded message into `data`
(lines 142-151 of main.cpp): each recognized key that is present overwrites
the field, an absent key keeps the prior value. -/
def stickyData (m : Msg) (d : DataState) : DataState :=
  { cpu := m.cpu.getD d.cpu
    ram := m.ram.getD d.ram
    ram_used := m.ram_used.getD d.ram_used
    tempC := match m.temp with | some v => some v | none => d.tempC
    host := m.host.getD d.host
    epoch := m.time.getD d.epoch
    uptime := m.uptime.getD d.uptime
    diskFreeKB := m.disk_free.getD d.diskFreeKB
    net_rx := match m.net_rx with | some v => some v | none => d.net_rx
    net_tx := match m.net_tx with | some v => some v | none => d.net_tx }

/-- The body of `updateFromJsonLine` after a successful parse: sticky merge
into `data`, `appName` update, target derivation, network auto-scale update,
and ticker rebuild (lines 141-181 of main.cpp). -/
def applyMsg (m : Msg) (s : LoopState) : LoopState :=
  let d := stickyData m s.data
  let app := match m.app with | some a => a.trim | none => s.appName
  let u := s.ui
  -- if (data.cpu >= 0) ui.tgtCpu = data.cpu;
  let u := if 0 ≤ d.cpu then { u with tgtCpu := d.cpu } else u
  -- if (data.ram > 0 && data.ram_used >= 0) ui.tgtRamRatio = ram_used / ram;
  let u := if 0 < d.ram ∧ 0 ≤ d.ram_used then
      { u with tgtRam := (d.ram_used : ℚ) / (d.ram : ℚ) } else u
  -- network auto-scale block (lines 161-166)
  let u := match d.net_rx, d.net_tx with
    | some rx, some tx =>
      let total := maxQ 0 (rx + tx)
      let u := if u.netMaxKBs < total then { u with netMaxKBs := total } else u
      let u := { u with tgtNet := if 0 < u.netMaxKBs then total / u.netMaxKBs else 0 }
      let nm := u.netMaxKBs * (249/250)
      { u with netMaxKBs := if nm < 1 then 1 else nm }
    | _, _ => u
  -- ticker rebuild (lines 168-178)
  let txt := tickerOf d
  let w := textWidth txt
  let u := { u with
    tickerText := txt
    tickerW := if w < 1 then 1 else w
    tickerX := if 128 < u.tickerX then 128 else u.tickerX
    hasData := true }
  { s with data := d, appName := app, ui := u }

/-- `updateFromJsonLine`: a line that fails JSON parsing (`none`) returns
`false` and leaves the state untouched (the error is only printed to Serial);
a parsed line is applied and returns `true`. -/
def updateFromJsonLine : Option Msg → LoopState → Bool × LoopState
  | none, s => (false, s)
  | some m, s => (true, applyMsg m s)

/-- One completed serial line inside the read loop of `loop`:
`if (updateFromJsonLine(line)) lastDataMs = millis();`. -/
def decodeOne (now : ℕ) (om : Option Msg) (s : LoopState) : LoopState :=
  match updateFromJsonLine om s with
  | (true, s1) => { s1 with lastDataMs := now }
  | (false, s1) => s1

/-- Draining all completed lines of one `loop` pass. -/
def decodePhase (now : ℕ) (msgs : List (Option Msg)) (s : LoopState) : LoopState :=
  msgs.foldl (fun a om => decodeOne now om a) s

/-- The random draws and the libm `sin`-derived head-bob value consumed by one
animation tick, together with the `millis()` reading and the lines completed
by the serial read phase of the same `loop` pass. -/
structure StepIn where
  now : ℕ
  msgs : List (Option Msg)
  rWink : ℕ
  rWinkSch : ℕ
  rSweat : ℕ
  rSweatSch : ℕ
  bob : ℤ
deriving Repr, DecidableEq

/-- Smoothing stage of the animation tick (lines 435-440): each current value
moves 15% of the way to its target and is re-clamped to its range. -/
def smoothStage (s : LoopState) : LoopState :=
  { s with ui := { s.ui with
      curCpu := clampQ 0 100 (s.ui.curCpu + (s.ui.tgtCpu - s.ui.curCpu) * (3/20))
      curRam := clampQ 0 1 (s.ui.curRam + (s.ui.tgtRam - s.ui.curRam) * (3/20))
      curNet := clampQ 0 1 (s.ui.curNet + (s.ui.tgtNet - s.ui.curNet) * (3/20)) } }

/-- Ticker scroll stage (line 443): move one pixel left, wrap to the display
width once fully past the left edge. -/
def tickerStage (s : LoopState) : LoopState :=
  { s with ui := { s.ui with
      tickerX := if s.ui.tickerX - 1 + s.ui.tickerW < 0 then 128 else s.ui.tickerX - 1 } }

/-- Blink stage (lines 447-452). -/
def blinkStage (now : ℕ) (s : LoopState) : LoopState :=
  let u := s.ui
  let u := if u.tamaNextBlink < now then
      { u with tamaBlink := true, tamaBlinkUntil := now + 120,
               tamaNextBlink := now + 2000 + now % 3000 } else u
  let u := if u.tamaBlink ∧ u.tamaBlinkUntil < now then { u with tamaBlink := false } else u
  { s with ui := u }

/-- Mouth-phase stage (line 453). -/
def mouthStage (now : ℕ) (s : LoopState) : LoopState :=
  if 300 < now - s.ui.tamaMouthMs then
    { s with ui := { s.ui with tamaMouthMs := now, tamaMouthPhase := (s.ui.tamaMouthPhase + 1) % 4 } }
  else s

/-- Wink stage (lines 456-463); `rW` is the `random(100)` draw and `rWS` the
`random(2000)` draw. -/
def winkStage (now rW rWS : ℕ) (s : LoopState) : LoopState :=
  let u := s.ui
  let p :=
    if s.nextWink < now then
      let u := if rW % 100 < 10 ∧ ¬u.tamaBlink then
          { u with tamaWink := true, tamaWinkUntil := now + 120 } else u
      (u, now + 1500 + rWS % 2000)
    else (u, s.nextWink)
  let u := p.1
  let u := if u.tamaWink ∧ u.tamaWinkUntil < now then { u with tamaWink := false } else u
  { s with ui := u, nextWink := p.2 }

/-- The instantaneous load `(curCpu/100 + curRamRatio) * 0.5` computed by the
sweat block (line 469) and again by the sleep block (line 482). -/
def tickLoad (u : UIState) : ℚ := (0 + u.curCpu / 100 + u.curRam) * (1/2)

/-- Sweat stage (lines 468-476); `rS` is the `random(100)` draw and `rSS` the
`random(2000)` draw. -/
def sweatStage (now rS rSS : ℕ) (s : LoopState) : LoopState :=
  let u := s.ui
  let loadNow := tickLoad u
  let p :=
    if s.nextSweat < now then
      let prob : ℤ := intOfQ (maxQ 0 (loadNow - 7/10) * 100) + 5
      let u := if (rS % 100 : ℤ) < prob then
          { u with tamaSweat := true, tamaSweatUntil := now + 500 } else u
      (u, now + 2000 + rSS % 2000)
    else (u, s.nextSweat)
  let u := p.1
  let u := if u.tamaSweat ∧ u.tamaSweatUntil < now then { u with tamaSweat := false } else u
  { s with ui := u, nextSweat := p.2 }

/-- Head-bob stage (line 479); the `sin(now/400.0) * 1.5` value is an input. -/
def bobStage (bob : ℤ) (s : LoopState) : LoopState :=
  { s with ui := { s.ui with headBob := bob } }

/-- Sleep state machine stage of the tick (lines 481-491). -/
def sleepStage (now : ℕ) (s : LoopState) : LoopState :=
  let u := s.ui
  if tickLoad u < 11/50 then
    let u := if u.lowLoadSince = 0 then { u with lowLoadSince := now } else u
    let u := if ¬u.tamaSleeping ∧ 9000 < now - u.lowLoadSince then
        { u with tamaSleeping := true } else u
    { s with ui := u }
  else
    { s with ui := { u with
        lowLoadSince := 0
        tamaSleeping := if now - s.lastDataMs ≤ 4000 then false else u.tamaSleeping
        sleepStep := 0 } }

/-- The sleep-Z sub-animation advanced by `drawInfoLines` during the render
pass (lines 317-321): while sleeping, every 600 ms the 3-phase counter steps. -/
def zStage (now : ℕ) (s : LoopState) : LoopState :=
  if s.ui.tamaSleeping then
    if 600 < now - s.ui.sleepMs then
      { s with ui := { s.ui with sleepMs := now, sleepStep := (s.ui.sleepStep + 1) % 3 } }
    else s
  else s

/-- One full animation tick plus render pass (lines 435-499), run once the
60 ms gate has passed. -/
def animTick (e : StepIn) (s : LoopState) : LoopState :=
  zStage e.now (sleepStage e.now (bobStage e.bob (sweatStage e.now e.rSweat e.rSweatSch
    (winkStage e.now e.rWink e.rWinkSch (mouthStage e.now (blinkStage e.now
      (tickerStage (smoothStage s))))))))

/-- The connection-loss check of lines 426-428, run on every `loop` pass that
has ever received data: stale for more than 4000 ms forces the sleeping flag. -/
def staleSleep (now : ℕ) (s : LoopState) : LoopState :=
  if 4000 < now - s.lastDataMs then { s with ui := { s.ui with tamaSleeping := true } } else s

/-- One full pass of `loop`: drain and decode the completed serial lines, show
the waiting screen while nothing was ever received, run the staleness check,
and - at most every 60 ms - run one animation tick and render. -/
def loopStep (e : StepIn) (s : LoopState) : LoopState :=
  let s1 := decodePhase e.now e.msgs s
  if s1.lastDataMs = 0 then s1
  else
    let s2 := staleSleep e.now s1
    if e.now - s2.lastAnim < 60 then s2
    else animTick e { s2 with lastAnim := e.now }

/-- A run of consecutive `loop` passes. -/
def runSteps (es : List StepIn) (s : LoopState) : LoopState :=
  es.foldl (fun a e => loopStep e a) s

/-- A run of consecutive animation ticks with no intervening decode. -/
def runTicks (es : List StepIn) (s : LoopState) : LoopState :=
  es.foldl (fun a e => animTick e a) s

/-- Whether a `loop` pass performs an animation tick: some data has been
received (after this pass's decode phase) and the 60 ms gate has elapsed. -/
def ticks (e : StepIn) (s : LoopState) : Bool :=
  let s1 := decodePhase e.now e.msgs s
  decide (s1.lastDataMs ≠ 0) && decide (60 ≤ e.now - s1.lastAnim)

/-- The load the sleep machine computes on the tick of this `loop` pass:
the smoothed values right after the smoothing stage. -/
def stepTickLoad (e : StepIn) (s : LoopState) : ℚ :=
  tickLoad (smoothStage (staleSleep e.now (decodePhase e.now e.msgs s))).ui

/-- Every animation tick performed along the run computes a load strictly
below the 0.22 sleep threshold. -/
def lowThroughout : List StepIn → LoopState → Prop
  | [], _ => True
  | e :: es, s => (ticks e s = true → stepTickLoad e s < 11/50) ∧ lowThroughout es (loopStep e s)

/-- The `millis()` readings of the passes that actually perform a tick. -/
def tickTimes : List StepIn → LoopState → List ℕ
  | [], _ => []
  | e :: es, s => (if ticks e s then [e.now] else []) ++ tickTimes es (loopStep e s)

/-- `DataState` at power-up (member initializers of the struct). -/
def initData : DataState :=
  { cpu := -1, ram := -1, ram_used := -1, tempC := none, host := "", epoch := 0,
    uptime := -1, diskFreeKB := -1, net_rx := none, net_tx := none }

/-- `UIState` at power-up (member initializers of the struct). -/
def initUI : UIState :=
  { hasData := false, tgtCpu := 0, tgtRam := 0, tgtNet := 0,
    curCpu := 0, curRam := 0, curNet := 0, netMaxKBs := 1,
    tickerText := "", tickerX := 128, tickerW := 1,
    tamaBlink := false, tamaBlinkUntil := 0, tamaNextBlink := 0,
    tamaMouthPhase := 0, tamaMouthMs := 0,
    tamaWink := false, tamaWinkUntil := 0, tamaSweat := false, tamaSweatUntil := 0,
    headBob := 0, tamaSleeping := false, lowLoadSince := 0, sleepStep := 0, sleepMs := 0 }

/-- The whole program state right after `setup`. -/
def initState : LoopState :=
  { data := initData, appName := "", ui := initUI,
    lastDataMs := 0, nextWink := 0, nextSweat := 0, lastAnim := 0 }

/-- The mood load computed by `drawInfoLines` (lines 270-273): built from the
RAW snapshot fields, an absent side contributing 0. -/
def loadRaw (d : DataState) : ℚ :=
  (0 + (if 0 ≤ d.cpu then d.cpu / 100 else 0)
     + (if 0 < d.ram ∧ 0 ≤ d.ram_used then (d.ram_used : ℚ) / (d.ram : ℚ) else 0)) * (1/2)

/-- The three mood bands of the face. -/
inductive Mood where
  | happy
  | neutral
  | sad
deriving Repr, DecidableEq

/-- The mouth expression drawn by `drawInfoLines` when the character is awake
(lines 331-343): smile below 0.42, flat line below 0.68, frown otherwise. -/
def faceMood (d : DataState) : Mood :=
  if loadRaw d < 21/50 then Mood.happy
  else if loadRaw d < 17/25 then Mood.neutral
  else Mood.sad

/-! Projection lemmas: which state components each stage leaves untouched. -/

@[simp] lemma smoothStage_data (s : LoopState) : (smoothStage s).data = s.data := rfl
@[simp] lemma smoothStage_lastDataMs (s : LoopState) : (smoothStage s).lastDataMs = s.lastDataMs := rfl
@[simp] lemma smoothStage_tgtCpu (s : LoopState) : (smoothStage s).ui.tgtCpu = s.ui.tgtCpu := rfl
@[simp] lemma smoothStage_tgtRam (s : LoopState) : (smoothStage s).ui.tgtRam = s.ui.tgtRam := rfl
@[simp] lemma smoothStage_tgtNet (s : LoopState) : (smoothStage s).ui.tgtNet = s.ui.tgtNet := rfl
@[simp] lemma smoothStage_netMax (s : LoopState) : (smoothStage s).ui.netMaxKBs = s.ui.netMaxKBs := rfl
@[simp] lemma smoothStage_sleeping (s : LoopState) : (smoothStage s).ui.tamaSleeping = s.ui.tamaSleeping := rfl
@[simp] lemma smoothStage_lls (s : LoopState) : (smoothStage s).ui.lowLoadSince = s.ui.lowLoadSince := rfl
@[simp] lemma smoothStage_sleepStep (s : LoopState) : (smoothStage s).ui.sleepStep = s.ui.sleepStep := rfl
@[simp] lemma smoothStage_curCpu (s : LoopState) :
    (smoothStage s).ui.curCpu = clampQ 0 100 (s.ui.curCpu + (s.ui.tgtCpu - s.ui.curCpu) * (3/20)) := rfl
@[simp] lemma smoothStage_curRam (s : LoopState) :
    (smoothStage s).ui.curRam = clampQ 0 1 (s.ui.curRam + (s.ui.tgtRam - s.ui.curRam) * (3/20)) := rfl
@[simp] lemma smoothStage_curNet (s : LoopState) :
    (smoothStage s).ui.curNet = clampQ 0 1 (s.ui.curNet + (s.ui.tgtNet - s.ui.curNet) * (3/20)) := rfl

@[simp] lemma tickerStage_data (s : LoopState) : (tickerStage s).data = s.data := rfl
@[simp] lemma tickerStage_lastDataMs (s : LoopState) : (tickerStage s).lastDataMs = s.lastDataMs := rfl
@[simp] lemma tickerStage_curCpu (s : LoopState) : (tickerStage s).ui.curCpu = s.ui.curCpu := rfl
@[simp] lemma tickerStage_curRam (s : LoopState) : (tickerStage s).ui.curRam = s.ui.curRam := rfl
@[simp] lemma tickerStage_curNet (s : LoopState) : (tickerStage s).ui.curNet = s.ui.curNet := rfl
@[simp] lemma tickerStage_tgtCpu (s : LoopState) : (tickerStage s).ui.tgtCpu = s.ui.tgtCpu := rfl
@[simp] lemma tickerStage_tgtRam (s : LoopState) : (tickerStage s).ui.tgtRam = s.ui.tgtRam := rfl
@[simp] lemma tickerStage_tgtNet (s : LoopState) : (tickerStage s).ui.tgtNet = s.ui.tgtNet := rfl
@[simp] lemma tickerStage_netMax (s : LoopState) : (tickerStage s).ui.netMaxKBs = s.ui.netMaxKBs := rfl
@[simp] lemma tickerStage_sleeping (s : LoopState) : (tickerStage s).ui.tamaSleeping = s.ui.tamaSleeping := rfl
@[simp] lemma tickerStage_lls (s : LoopState) : (tickerStage s).ui.lowLoadSince = s.ui.lowLoadSince := rfl
@[simp] lemma tickerStage_sleepStep (s : LoopState) : (tickerStage s).ui.sleepStep = s.ui.sleepStep := rfl

@[simp] lemma blinkStage_data (n : ℕ) (s : LoopState) : (blinkStage n s).data = s.data := rfl
@[simp] lemma blinkStage_lastDataMs (n : ℕ) (s : LoopState) : (blinkStage n s).lastDataMs = s.lastDataMs := rfl
@[simp] lemma blinkStage_curCpu (n : ℕ) (s : LoopState) : (blinkStage n s).ui.curCpu = s.ui.curCpu := by
  simp only [blinkStage]; split_ifs <;> rfl
@[simp] lemma blinkStage_curRam (n : ℕ) (s : LoopState) : (blinkStage n s).ui.curRam = s.ui.curRam := by
  simp only [blinkStage]; split_ifs <;> rfl
@[simp] lemma blinkStage_curNet (n : ℕ) (s : LoopState) : (blinkStage n s).ui.curNet = s.ui.curNet := by
  simp only [blinkStage]; split_ifs <;> rfl
@[simp] lemma blinkStage_tgtCpu (n : ℕ) (s : LoopState) : (blinkStage n s).ui.tgtCpu = s.ui.tgtCpu := by
  simp only [blinkStage]; split_ifs <;> rfl
@[simp] lemma blinkStage_tgtRam (n : ℕ) (s : LoopState) : (blinkStage n s).ui.tgtRam = s.ui.tgtRam := by
  simp only [blinkStage]; split_ifs <;> rfl
@[simp] lemma blinkStage_tgtNet (n : ℕ) (s : LoopState) : (blinkStage n s).ui.tgtNet = s.ui.tgtNet := by
  simp only [blinkStage]; split_ifs <;> rfl
@[simp] lemma blinkStage_netMax (n : ℕ) (s : LoopState) : (blinkStage n s).ui.netMaxKBs = s.ui.netMaxKBs := by
  simp only [blinkStage]; split_ifs <;> rfl
@[simp] lemma blinkStage_sleeping (n : ℕ) (s : LoopState) : (blinkStage n s).ui.tamaSleeping = s.ui.tamaSleeping := by
  simp only [blinkStage]; split_ifs <;> rfl
@[simp] lemma blinkStage_lls (n : ℕ) (s : LoopState) : (blinkStage n s).ui.lowLoadSince = s.ui.lowLoadSince := by
  simp only [blinkStage]; split_ifs <;> rfl
@[simp] lemma blinkStage_sleepStep (n : ℕ) (s : LoopState) : (blinkStage n s).ui.sleepStep = s.ui.sleepStep := by
  simp only [blinkStage]; split_ifs <;> rfl

@[simp] lemma mouthStage_data (n : ℕ) (s : LoopState) : (mouthStage n s).data = s.data := by
  simp only [mouthStage]; split_ifs <;> rfl
@[simp] lemma mouthStage_lastDataMs (n : ℕ) (s : LoopState) : (mouthStage n s).lastDataMs = s.lastDataMs := by
  simp only [mouthStage]; split_ifs <;> rfl
@[simp] lemma mouthStage_curCpu (n : ℕ) (s : LoopState) : (mouthStage n s).ui.curCpu = s.ui.curCpu := by
  simp only [mouthStage]; split_ifs <;> rfl
@[simp] lemma mouthStage_curRam (n : ℕ) (s : LoopState) : (mouthStage n s).ui.curRam = s.ui.curRam := by
  simp only [mouthStage]; split_ifs <;> rfl
@[simp] lemma mouthStage_curNet (n : ℕ) (s : LoopState) : (mouthStage n s).ui.curNet = s.ui.curNet := by
  simp only [mouthStage]; split_ifs <;> rfl
@[simp] lemma mouthStage_tgtCpu (n : ℕ) (s : LoopState) : (mouthStage n s).ui.tgtCpu = s.ui.tgtCpu := by
  simp only [mouthStage]; split_ifs <;> rfl
@[simp] lemma mouthStage_tgtRam (n : ℕ) (s : LoopState) : (mouthStage n s).ui.tgtRam = s.ui.tgtRam := by
  simp only [mouthStage]; split_ifs <;> rfl
@[simp] lemma mouthStage_tgtNet (n : ℕ) (s : LoopState) : (mouthStage n s).ui.tgtNet = s.ui.tgtNet := by
  simp only [mouthStage]; split_ifs <;> rfl
@[simp] lemma mouthStage_netMax (n : ℕ) (s : LoopState) : (mouthStage n s).ui.netMaxKBs = s.ui.netMaxKBs := by
  simp only [mouthStage]; split_ifs <;> rfl
@[simp] lemma mouthStage_sleeping (n : ℕ) (s : LoopState) : (mouthStage n s).ui.tamaSleeping = s.ui.tamaSleeping := by
  simp only [mouthStage]; split_ifs <;> rfl
@[simp] lemma mouthStage_lls (n : ℕ) (s : LoopState) : (mouthStage n s).ui.lowLoadSince = s.ui.lowLoadSince := by
  simp only [mouthStage]; split_ifs <;> rfl
@[simp] lemma mouthStage_sleepStep (n : ℕ) (s : LoopState) : (mouthStage n s).ui.sleepStep = s.ui.sleepStep := by
  simp only [mouthStage]; split_ifs <;> rfl

@[simp] lemma winkStage_data (n a b : ℕ) (s : LoopState) : (winkStage n a b s).data = s.data := rfl
@[simp] lemma winkStage_lastDataMs (n a b : ℕ) (s : LoopState) : (winkStage n a b s).lastDataMs = s.lastDataMs := rfl
@[simp] lemma winkStage_curCpu (n a b : ℕ) (s : LoopState) : (winkStage n a b s).ui.curCpu = s.ui.curCpu := by
  simp only [winkStage]; split_ifs <;> rfl
@[simp] lemma winkStage_curRam (n a b : ℕ) (s : LoopState) : (winkStage n a b s).ui.curRam = s.ui.curRam := by
  simp only [winkStage]; split_ifs <;> rfl
@[simp] lemma winkStage_curNet (n a b : ℕ) (s : LoopState) : (winkStage n a b s).ui.curNet = s.ui.curNet := by
  simp only [winkStage]; split_ifs <;> rfl
@[simp] lemma winkStage_tgtCpu (n a b : ℕ) (s : LoopState) : (winkStage n a b s).ui.tgtCpu = s.ui.tgtCpu := by
  simp only [winkStage]; split_ifs <;> rfl
@[simp] lemma winkStage_tgtRam (n a b : ℕ) (s : LoopState) : (winkStage n a b s).ui.tgtRam = s.ui.tgtRam := by
  simp only [winkStage]; split_ifs <;> rfl
@[simp] lemma winkStage_tgtNet (n a b : ℕ) (s : LoopState) : (winkStage n a b s).ui.tgtNet = s.ui.tgtNet := by
  simp only [winkStage]; split_ifs <;> rfl
@[simp] lemma winkStage_netMax (n a b : ℕ) (s : LoopState) : (winkStage n a b s).ui.netMaxKBs = s.ui.netMaxKBs := by
  simp only [winkStage]; split_ifs <;> rfl
@[simp] lemma winkStage_sleeping (n a b : ℕ) (s : LoopState) : (winkStage n a b s).ui.tamaSleeping = s.ui.tamaSleeping := by
  simp only [winkStage]; split_ifs <;> rfl
@[simp] lemma winkStage_lls (n a b : ℕ) (s : LoopState) : (winkStage n a b s).ui.lowLoadSince = s.ui.lowLoadSince := by
  simp only [winkStage]; split_ifs <;> rfl
@[simp] lemma winkStage_sleepStep (n a b : ℕ) (s : LoopState) : (winkStage n a b s).ui.sleepStep = s.ui.sleepStep := by
  simp only [winkStage]; split_ifs <;> rfl

@[simp] lemma sweatStage_data (n a b : ℕ) (s : LoopState) : (sweatStage n a b s).data = s.data := rfl
@[simp] lemma sweatStage_lastDataMs (n a b : ℕ) (s : LoopState) : (sweatStage n a b s).lastDataMs = s.lastDataMs := rfl
@[simp] lemma sweatStage_curCpu (n a b : ℕ) (s : LoopState) : (sweatStage n a b s).ui.curCpu = s.ui.curCpu := by
  simp only [sweatStage]; split_ifs <;> rfl
@[simp] lemma sweatStage_curRam (n a b : ℕ) (s : LoopState) : (sweatStage n a b s).ui.curRam = s.ui.curRam := by
  simp only [sweatStage]; split_ifs <;> rfl
@[simp] lemma sweatStage_curNet (n a b : ℕ) (s : LoopState) : (sweatStage n a b s).ui.curNet = s.ui.curNet := by
  simp only [sweatStage]; split_ifs <;> rfl
@[simp] lemma sweatStage_tgtCpu (n a b : ℕ) (s : LoopState) : (sweatStage n a b s).ui.tgtCpu = s.ui.tgtCpu := by
  simp only [sweatStage]; split_ifs <;> rfl
@[simp] lemma sweatStage_tgtRam (n a b : ℕ) (s : LoopState) : (sweatStage n a b s).ui.tgtRam = s.ui.tgtRam := by
  simp only [sweatStage]; split_ifs <;> rfl
@[simp] lemma sweatStage_tgtNet (n a b : ℕ) (s : LoopState) : (sweatStage n a b s).ui.tgtNet = s.ui.tgtNet := by
  simp only [sweatStage]; split_ifs <;> rfl
@[simp] lemma sweatStage_netMax (n a b : ℕ) (s : LoopState) : (sweatStage n a b s).ui.netMaxKBs = s.ui.netMaxKBs := by
  simp only [sweatStage]; split_ifs <;> rfl
@[simp] lemma sweatStage_sleeping (n a b : ℕ) (s : LoopState) : (sweatStage n a b s).ui.tamaSleeping = s.ui.tamaSleeping := by
  simp only [sweatStage]; split_ifs <;> rfl
@[simp] lemma sweatStage_lls (n a b : ℕ) (s : LoopState) : (sweatStage n a b s).ui.lowLoadSince = s.ui.lowLoadSince := by
  simp only [sweatStage]; split_ifs <;> rfl
@[simp] lemma sweatStage_sleepStep (n a b : ℕ) (s : LoopState) : (sweatStage n a b s).ui.sleepStep = s.ui.sleepStep := by
  simp only [sweatStage]; split_ifs <;> rfl

@[simp] lemma bobStage_data (b : ℤ) (s : LoopState) : (bobStage b s).data = s.data := rfl
@[simp] lemma bobStage_lastDataMs (b : ℤ) (s : LoopState) : (bobStage b s).lastDataMs = s.lastDataMs := rfl
@[simp] lemma bobStage_curCpu (b : ℤ) (s : LoopState) : (bobStage b s).ui.curCpu = s.ui.curCpu := rfl
@[simp] lemma bobStage_curRam (b : ℤ) (s : LoopState) : (bobStage b s).ui.curRam = s.ui.curRam := rfl
@[simp] lemma bobStage_curNet (b : ℤ) (s : LoopState) : (bobStage b s).ui.curNet = s.ui.curNet := rfl
@[simp] lemma bobStage_tgtCpu (b : ℤ) (s : LoopState) : (bobStage b s).ui.tgtCpu = s.ui.tgtCpu := rfl
@[simp] lemma bobStage_tgtRam (b : ℤ) (s : LoopState) : (bobStage b s).ui.tgtRam = s.ui.tgtRam := rfl
@[simp] lemma bobStage_tgtNet (b : ℤ) (s : LoopState) : (bobStage b s).ui.tgtNet = s.ui.tgtNet := rfl
@[simp] lemma bobStage_netMax (b : ℤ) (s : LoopState) : (bobStage b s).ui.netMaxKBs = s.ui.netMaxKBs := rfl
@[simp] lemma bobStage_sleeping (b : ℤ) (s : LoopState) : (bobStage b s).ui.tamaSleeping = s.ui.tamaSleeping := rfl
@[simp] lemma bobStage_lls (b : ℤ) (s : LoopState) : (bobStage b s).ui.lowLoadSince = s.ui.lowLoadSince := rfl
@[simp] lemma bobStage_sleepStep (b : ℤ) (s : LoopState) : (bobStage b s).ui.sleepStep = s.ui.sleepStep := rfl

@[simp] lemma sleepStage_data (n : ℕ) (s : LoopState) : (sleepStage n s).data = s.data := by
  simp only [sleepStage]; split_ifs <;> rfl
@[simp] lemma sleepStage_lastDataMs (n : ℕ) (s : LoopState) : (sleepStage n s).lastDataMs = s.lastDataMs := by
  simp only [sleepStage]; split_ifs <;> rfl
@[simp] lemma sleepStage_curCpu (n : ℕ) (s : LoopState) : (sleepStage n s).ui.curCpu = s.ui.curCpu := by
  simp only [sleepStage]; split_ifs <;> rfl
@[simp] lemma sleepStage_curRam (n : ℕ) (s : LoopState) : (sleepStage n s).ui.curRam = s.ui.curRam := by
  simp only [sleepStage]; split_ifs <;> rfl
@[simp] lemma sleepStage_curNet (n : ℕ) (s : LoopState) : (sleepStage n s).ui.curNet = s.ui.curNet := by
  simp only [sleepStage]; split_ifs <;> rfl
@[simp] lemma sleepStage_tgtCpu (n : ℕ) (s : LoopState) : (sleepStage n s).ui.tgtCpu = s.ui.tgtCpu := by
  simp only [sleepStage]; split_ifs <;> rfl
@[simp] lemma sleepStage_tgtRam (n : ℕ) (s : LoopState) : (sleepStage n s).ui.tgtRam = s.ui.tgtRam := by
  simp only [sleepStage]; split_ifs <;> rfl
@[simp] lemma sleepStage_tgtNet (n : ℕ) (s : LoopState) : (sleepStage n s).ui.tgtNet = s.ui.tgtNet := by
  simp only [sleepStage]; split_ifs <;> rfl
@[simp] lemma sleepStage_netMax (n : ℕ) (s : LoopState) : (sleepStage n s).ui.netMaxKBs = s.ui.netMaxKBs := by
  simp only [sleepStage]; split_ifs <;> rfl

@[simp] lemma zStage_data (n : ℕ) (s : LoopState) : (zStage n s).data = s.data := by
  simp only [zStage]; split_ifs <;> rfl
@[simp] lemma zStage_lastDataMs (n : ℕ) (s : LoopState) : (zStage n s).lastDataMs = s.lastDataMs := by
  simp only [zStage]; split_ifs <;> rfl
@[simp] lemma zStage_curCpu (n : ℕ) (s : LoopState) : (zStage n s).ui.curCpu = s.ui.curCpu := by
  simp only [zStage]; split_ifs <;> rfl
@[simp] lemma zStage_curRam (n : ℕ) (s : LoopState) : (zStage n s).ui.curRam = s.ui.curRam := by
  simp only [zStage]; split_ifs <;> rfl
@[simp] lemma zStage_curNet (n : ℕ) (s : LoopState) : (zStage n s).ui.curNet = s.ui.curNet := by
  simp only [zStage]; split_ifs <;> rfl
@[simp] lemma zStage_tgtCpu (n : ℕ) (s : LoopState) : (zStage n s).ui.tgtCpu = s.ui.tgtCpu := by
  simp only [zStage]; split_ifs <;> rfl
@[simp] lemma zStage_tgtRam (n : ℕ) (s : LoopState) : (zStage n s).ui.tgtRam = s.ui.tgtRam := by
  simp only [zStage]; split_ifs <;> rfl
@[simp] lemma zStage_tgtNet (n : ℕ) (s : LoopState) : (zStage n s).ui.tgtNet = s.ui.tgtNet := by
  simp only [zStage]; split_ifs <;> rfl
@[simp] lemma zStage_netMax (n : ℕ) (s : LoopState) : (zStage n s).ui.netMaxKBs = s.ui.netMaxKBs := by
  simp only [zStage]; split_ifs <;> rfl
@[simp] lemma zStage_sleeping (n : ℕ) (s : LoopState) : (zStage n s).ui.tamaSleeping = s.ui.tamaSleeping := by
  simp only [zStage]; split_ifs <;> rfl
@[simp] lemma zStage_lls (n : ℕ) (s : LoopState) : (zStage n s).ui.lowLoadSince = s.ui.lowLoadSince := by
  simp only [zStage]; split_ifs <;> rfl

@[simp] lemma staleSleep_data (n : ℕ) (s : LoopState) : (staleSleep n s).data = s.data := by
  simp only [staleSleep]; split_ifs <;> rfl
@[simp] lemma staleSleep_lastDataMs (n : ℕ) (s : LoopState) : (staleSleep n s).lastDataMs = s.lastDataMs := by
  simp only [staleSleep]; split_ifs <;> rfl
@[simp] lemma staleSleep_lastAnim (n : ℕ) (s : LoopState) : (staleSleep n s).lastAnim = s.lastAnim := by
  simp only [staleSleep]; split_ifs <;> rfl
@[simp] lemma staleSleep_curCpu (n : ℕ) (s : LoopState) : (staleSleep n s).ui.curCpu = s.ui.curCpu := by
  simp only [staleSleep]; split_ifs <;> rfl
@[simp] lemma staleSleep_curRam (n : ℕ) (s : LoopState) : (staleSleep n s).ui.curRam = s.ui.curRam := by
  simp only [staleSleep]; split_ifs <;> rfl
@[simp] lemma staleSleep_curNet (n : ℕ) (s : LoopState) : (staleSleep n s).ui.curNet = s.ui.curNet := by
  simp only [staleSleep]; split_ifs <;> rfl
@[simp] lemma staleSleep_tgtCpu (n : ℕ) (s : LoopState) : (staleSleep n s).ui.tgtCpu = s.ui.tgtCpu := by
  simp only [staleSleep]; split_ifs <;> rfl
@[simp] lemma staleSleep_tgtRam (n : ℕ) (s : LoopState) : (staleSleep n s).ui.tgtRam = s.ui.tgtRam := by
  simp only [staleSleep]; split_ifs <;> rfl
@[simp] lemma staleSleep_tgtNet (n : ℕ) (s : LoopState) : (staleSleep n s).ui.tgtNet = s.ui.tgtNet := by
  simp only [staleSleep]; split_ifs <;> rfl
@[simp] lemma staleSleep_netMax (n : ℕ) (s : LoopState) : (staleSleep n s).ui.netMaxKBs = s.ui.netMaxKBs := by
  simp only [staleSleep]; split_ifs <;> rfl
@[simp] lemma staleSleep_lls (n : ℕ) (s : LoopState) : (staleSleep n s).ui.lowLoadSince = s.ui.lowLoadSince := by
  simp only [staleSleep]; split_ifs <;> rfl
@[simp] lemma staleSleep_sleepStep (n : ℕ) (s : LoopState) : (staleSleep n s).ui.sleepStep = s.ui.sleepStep := by
  simp only [staleSleep]; split_ifs <;> rfl
lemma staleSleep_sleeping (n : ℕ) (s : LoopState) :
    (staleSleep n s).ui.tamaSleeping = if 4000 < n - s.lastDataMs then true else s.ui.tamaSleeping := by
  simp only [staleSleep]; split_ifs <;> rfl

/-! Preservation facts for the decode path: `updateFromJsonLine` never touches
the animated current values nor the sleep bookkeeping. -/

@[simp] lemma applyMsg_curCpu (m : Msg) (s : LoopState) : (applyMsg m s).ui.curCpu = s.ui.curCpu := by
  simp only [applyMsg]; split <;> split_ifs <;> rfl
@[simp] lemma applyMsg_curRam (m : Msg) (s : LoopState) : (applyMsg m s).ui.curRam = s.ui.curRam := by
  simp only [applyMsg]; split <;> split_ifs <;> rfl
@[simp] lemma applyMsg_curNet (m : Msg) (s : LoopState) : (applyMsg m s).ui.curNet = s.ui.curNet := by
  simp only [applyMsg]; split <;> split_ifs <;> rfl
@[simp] lemma applyMsg_sleeping (m : Msg) (s : LoopState) : (applyMsg m s).ui.tamaSleeping = s.ui.tamaSleeping := by
  simp only [applyMsg]; split <;> split_ifs <;> rfl
@[simp] lemma applyMsg_lls (m : Msg) (s : LoopState) : (applyMsg m s).ui.lowLoadSince = s.ui.lowLoadSince := by
  simp only [applyMsg]; split <;> split_ifs <;> rfl
@[simp] lemma applyMsg_sleepStep (m : Msg) (s : LoopState) : (applyMsg m s).ui.sleepStep = s.ui.sleepStep := by
  simp only [applyMsg]; split <;> split_ifs <;> rfl
@[simp] lemma applyMsg_lastAnim (m : Msg) (s : LoopState) : (applyMsg m s).lastAnim = s.lastAnim := rfl
@[simp] lemma applyMsg_lastDataMs (m : Msg) (s : LoopState) : (applyMsg m s).lastDataMs = s.lastDataMs := rfl

@[simp] lemma decodeOne_curCpu (n : ℕ) (om : Option Msg) (s : LoopState) :
    (decodeOne n om s).ui.curCpu = s.ui.curCpu := by
  cases om <;> simp [decodeOne, updateFromJsonLine]
@[simp] lemma decodeOne_curRam (n : ℕ) (om : Option Msg) (s : LoopState) :
    (decodeOne n om s).ui.curRam = s.ui.curRam := by
  cases om <;> simp [decodeOne, updateFromJsonLine]
@[simp] lemma decodeOne_curNet (n : ℕ) (om : Option Msg) (s : LoopState) :
    (decodeOne n om s).ui.curNet = s.ui.curNet := by
  cases om <;> simp [decodeOne, updateFromJsonLine]
@[simp] lemma decodeOne_sleeping (n : ℕ) (om : Option Msg) (s : LoopState) :
    (decodeOne n om s).ui.tamaSleeping = s.ui.tamaSleeping := by
  cases om <;> simp [decodeOne, updateFromJsonLine]
@[simp] lemma decodeOne_lls (n : ℕ) (om : Option Msg) (s : LoopState) :
    (decodeOne n om s).ui.lowLoadSince = s.ui.lowLoadSince := by
  cases om <;> simp [decodeOne, updateFromJsonLine]
@[simp] lemma decodeOne_sleepStep (n : ℕ) (om : Option Msg) (s : LoopState) :
    (decodeOne n om s).ui.sleepStep = s.ui.sleepStep := by
  cases om <;> simp [decodeOne, updateFromJsonLine]
@[simp] lemma decodeOne_lastAnim (n : ℕ) (om : Option Msg) (s : LoopState) :
    (decodeOne n om s).lastAnim = s.lastAnim := by
  cases om <;> simp [decodeOne, updateFromJsonLine]

lemma decodePhase_curCpu (n : ℕ) (ms : List (Option Msg)) (s : LoopState) :
    (decodePhase n ms s).ui.curCpu = s.ui.curCpu := by
  induction ms generalizing s with
  | nil => rfl
  | cons m ms ih => simp [decodePhase, List.foldl_cons] at ih ⊢; rw [ih]; simp
lemma decodePhase_curRam (n : ℕ) (ms : List (Option Msg)) (s : LoopState) :
    (decodePhase n ms s).ui.curRam = s.ui.curRam := by
  induction ms generalizing s with
  | nil => rfl
  | cons m ms ih => simp [decodePhase, List.foldl_cons] at ih ⊢; rw [ih]; simp
lemma decodePhase_curNet (n : ℕ) (ms : List (Option Msg)) (s : LoopState) :
    (decodePhase n ms s).ui.curNet = s.ui.curNet := by
  induction ms generalizing s with
  | nil => rfl
  | cons m ms ih => simp [decodePhase, List.foldl_cons] at ih ⊢; rw [ih]; simp
lemma decodePhase_sleeping (n : ℕ) (ms : List (Option Msg)) (s : LoopState) :
    (decodePhase n ms s).ui.tamaSleeping = s.ui.tamaSleeping := by
  induction ms generalizing s with
  | nil => rfl
  | cons m ms ih => simp [decodePhase, List.foldl_cons] at ih ⊢; rw [ih]; simp
lemma decodePhase_lls (n : ℕ) (ms : List (Option Msg)) (s : LoopState) :
    (decodePhase n ms s).ui.lowLoadSince = s.ui.lowLoadSince := by
  induction ms generalizing s with
  | nil => rfl
  | cons m ms ih => simp [decodePhase, List.foldl_cons] at ih ⊢; rw [ih]; simp
lemma decodePhase_lastAnim (n : ℕ) (ms : List (Option Msg)) (s : LoopState) :
    (decodePhase n ms s).lastAnim = s.lastAnim := by
  induction ms generalizing s with
  | nil => rfl
  | cons m ms ih => simp [decodePhase, List.foldl_cons] at ih ⊢; rw [ih]; simp

/-! Characterization of the sleep state machine stage. -/

lemma sleepStage_high (n : ℕ) (s : LoopState) (h : ¬ tickLoad s.ui < 11/50) :
    (sleepStage n s).ui.lowLoadSince = 0 ∧ (sleepStage n s).ui.sleepStep = 0 ∧
    (sleepStage n s).ui.tamaSleeping =
      (if n - s.lastDataMs ≤ 4000 then false else s.ui.tamaSleeping) := by
  simp only [sleepStage, if_neg h]
  exact ⟨trivial, trivial, trivial⟩

lemma sleepStage_low_fresh (n : ℕ) (s : LoopState) (h : tickLoad s.ui < 11/50)
    (h0 : s.ui.lowLoadSince = 0) :
    (sleepStage n s).ui.lowLoadSince = n ∧
    (sleepStage n s).ui.tamaSleeping = s.ui.tamaSleeping ∧
    (sleepStage n s).ui.sleepStep = s.ui.sleepStep := by
  simp only [sleepStage, if_pos h, if_pos h0]
  split_ifs with hc
  · exact absurd hc.2 (by omega)
  · exact ⟨rfl, rfl, rfl⟩

lemma sleepStage_low_running (n : ℕ) (s : LoopState) (h : tickLoad s.ui < 11/50)
    (h0 : s.ui.lowLoadSince ≠ 0) :
    (sleepStage n s).ui.lowLoadSince = s.ui.lowLoadSince ∧
    (sleepStage n s).ui.tamaSleeping =
      (if ¬s.ui.tamaSleeping = true ∧ 9000 < n - s.ui.lowLoadSince then true
       else s.ui.tamaSleeping) ∧
    (sleepStage n s).ui.sleepStep = s.ui.sleepStep := by
  simp only [sleepStage, if_pos h, if_neg h0]
  split_ifs <;> exact ⟨rfl, rfl, rfl⟩

lemma sleepStage_keeps_sleeping (n : ℕ) (s : LoopState) (h : tickLoad s.ui < 11/50)
    (hs : s.ui.tamaSleeping = true) : (sleepStage n s).ui.tamaSleeping = true := by
  simp only [sleepStage, if_pos h]
  split_ifs <;> simp_all

/-! Composition facts for the full animation tick. -/

lemma animTick_curCpu (e : StepIn) (s : LoopState) :
    (animTick e s).ui.curCpu = clampQ 0 100 (s.ui.curCpu + (s.ui.tgtCpu - s.ui.curCpu) * (3/20)) := by
  simp [animTick]

lemma animTick_curRam (e : StepIn) (s : LoopState) :
    (animTick e s).ui.curRam = clampQ 0 1 (s.ui.curRam + (s.ui.tgtRam - s.ui.curRam) * (3/20)) := by
  simp [animTick]

lemma animTick_curNet (e : StepIn) (s : LoopState) :
    (animTick e s).ui.curNet = clampQ 0 1 (s.ui.curNet + (s.ui.tgtNet - s.ui.curNet) * (3/20)) := by
  simp [animTick]

lemma animTick_tgtCpu (e : StepIn) (s : LoopState) : (animTick e s).ui.tgtCpu = s.ui.tgtCpu := by
  simp [animTick]
lemma animTick_tgtRam (e : StepIn) (s : LoopState) : (animTick e s).ui.tgtRam = s.ui.tgtRam := by
  simp [animTick]
lemma animTick_tgtNet (e : StepIn) (s : LoopState) : (animTick e s).ui.tgtNet = s.ui.tgtNet := by
  simp [animTick]
lemma animTick_netMax (e : StepIn) (s : LoopState) : (animTick e s).ui.netMaxKBs = s.ui.netMaxKBs := by
  simp [animTick]
lemma animTick_data (e : StepIn) (s : LoopState) : (animTick e s).data = s.data := by
  simp [animTick]

lemma clampQ_mem (lo hi x : ℚ) (h : lo ≤ hi) : lo ≤ clampQ lo hi x ∧ clampQ lo hi x ≤ hi := by
  unfold clampQ; split_ifs <;> constructor <;> linarith

lemma clampQ_id (lo hi x : ℚ) (h1 : lo ≤ x) (h2 : x ≤ hi) : clampQ lo hi x = x := by
  unfold clampQ; split_ifs <;> linarith

/-- C2: on every animation tick, whatever the prior state, the smoothed
current values end the tick clamped to their ranges (lines 435-440); a decode
never touches the current values, so any interleaving of successful decodes
and ticks keeps `curCpu` in `[0,100]` and `curRamRatio`, `curNetRatio` in
`[0,1]` after each tick. -/
theorem C2_current_values_in_range :
    (∀ (e : StepIn) (s : LoopState),
       0 ≤ (animTick e s).ui.curCpu ∧ (animTick e s).ui.curCpu ≤ 100 ∧
       0 ≤ (animTick e s).ui.curRam ∧ (animTick e s).ui.curRam ≤ 1 ∧
       0 ≤ (animTick e s).ui.curNet ∧ (animTick e s).ui.curNet ≤ 1) ∧
    (∀ (m : Msg) (s : LoopState),
       (applyMsg m s).ui.curCpu = s.ui.curCpu ∧
       (applyMsg m s).ui.curRam = s.ui.curRam ∧
       (applyMsg m s).ui.curNet = s.ui.curNet) := by
  constructor
  · intro e s
    rw [animTick_curCpu, animTick_curRam, animTick_curNet]
    have h1 := clampQ_mem 0 100 (s.ui.curCpu + (s.ui.tgtCpu - s.ui.curCpu) * (3/20)) (by norm_num)
    have h2 := clampQ_mem 0 1 (s.ui.curRam + (s.ui.tgtRam - s.ui.curRam) * (3/20)) (by norm_num)
    have h3 := clampQ_mem 0 1 (s.ui.curNet + (s.ui.tgtNet - s.ui.curNet) * (3/20)) (by norm_num)
    exact ⟨h1.1, h1.2, h2.1, h2.2, h3.1, h3.2⟩
  · intro m s
    exact ⟨applyMsg_curCpu m s, applyMsg_curRam m s, applyMsg_curNet m s⟩

lemma smooth_mem (hi x t : ℚ) (hx1 : 0 ≤ x) (hx2 : x ≤ hi) (ht1 : 0 ≤ t) (ht2 : t ≤ hi) :
    0 ≤ x + (t - x) * (3/20) ∧ x + (t - x) * (3/20) ≤ hi := by
  constructor <;> linarith

/-- Gap recurrence plus in-range invariant for any number of consecutive
animation ticks (targets are untouched by ticks, currents follow the
exponential filter, clamping is the identity on in-range values). -/
lemma runTicks_gap (es : List StepIn) (s : LoopState)
    (hc1 : 0 ≤ s.ui.curCpu) (hc2 : s.ui.curCpu ≤ 100)
    (ht1 : 0 ≤ s.ui.tgtCpu) (ht2 : s.ui.tgtCpu ≤ 100)
    (hr1 : 0 ≤ s.ui.curRam) (hr2 : s.ui.curRam ≤ 1)
    (hs1 : 0 ≤ s.ui.tgtRam) (hs2 : s.ui.tgtRam ≤ 1)
    (hn1 : 0 ≤ s.ui.curNet) (hn2 : s.ui.curNet ≤ 1)
    (hu1 : 0 ≤ s.ui.tgtNet) (hu2 : s.ui.tgtNet ≤ 1) :
    (runTicks es s).ui.tgtCpu = s.ui.tgtCpu ∧
    (runTicks es s).ui.tgtRam = s.ui.tgtRam ∧
    (runTicks es s).ui.tgtNet = s.ui.tgtNet ∧
    (0 ≤ (runTicks es s).ui.curCpu ∧ (runTicks es s).ui.curCpu ≤ 100) ∧
    (0 ≤ (runTicks es s).ui.curRam ∧ (runTicks es s).ui.curRam ≤ 1) ∧
    (0 ≤ (runTicks es s).ui.curNet ∧ (runTicks es s).ui.curNet ≤ 1) ∧
    (runTicks es s).ui.curCpu - s.ui.tgtCpu = (s.ui.curCpu - s.ui.tgtCpu) * (17/20) ^ es.length ∧
    (runTicks es s).ui.curRam - s.ui.tgtRam = (s.ui.curRam - s.ui.tgtRam) * (17/20) ^ es.length ∧
    (runTicks es s).ui.curNet - s.ui.tgtNet = (s.ui.curNet - s.ui.tgtNet) * (17/20) ^ es.length := by
  induction es generalizing s with
  | nil =>
    refine ⟨rfl, rfl, rfl, ⟨hc1, hc2⟩, ⟨hr1, hr2⟩, ⟨hn1, hn2⟩, ?_, ?_, ?_⟩ <;> simp [runTicks]
  | cons e es ih =>
    have hstep : runTicks (e :: es) s = runTicks es (animTick e s) := by
      simp [runTicks, List.foldl_cons]
    have mc := smooth_mem 100 s.ui.curCpu s.ui.tgtCpu hc1 hc2 ht1 ht2
    have mr := smooth_mem 1 s.ui.curRam s.ui.tgtRam hr1 hr2 hs1 hs2
    have mn := smooth_mem 1 s.ui.curNet s.ui.tgtNet hn1 hn2 hu1 hu2
    have ecc : (animTick e s).ui.curCpu = s.ui.curCpu + (s.ui.tgtCpu - s.ui.curCpu) * (3/20) := by
      rw [animTick_curCpu, clampQ_id _ _ _ mc.1 mc.2]
    have ecr : (animTick e s).ui.curRam = s.ui.curRam + (s.ui.tgtRam - s.ui.curRam) * (3/20) := by
      rw [animTick_curRam, clampQ_id _ _ _ mr.1 mr.2]
    have ecn : (animTick e s).ui.curNet = s.ui.curNet + (s.ui.tgtNet - s.ui.curNet) * (3/20) := by
      rw [animTick_curNet, clampQ_id _ _ _ mn.1 mn.2]
    have ih2 := ih (animTick e s)
      (by rw [ecc]; exact mc.1) (by rw [ecc]; exact mc.2)
      (by rw [animTick_tgtCpu]; exact ht1) (by rw [animTick_tgtCpu]; exact ht2)
      (by rw [ecr]; exact mr.1) (by rw [ecr]; exact mr.2)
      (by rw [animTick_tgtRam]; exact hs1) (by rw [animTick_tgtRam]; exact hs2)
      (by rw [ecn]; exact mn.1) (by rw [ecn]; exact mn.2)
      (by rw [animTick_tgtNet]; exact hu1) (by rw [animTick_tgtNet]; exact hu2)
    rw [hstep]
    obtain ⟨g1, g2, g3, b1, b2, b3, q1, q2, q3⟩ := ih2
    refine ⟨?_, ?_, ?_, b1, b2, b3, ?_, ?_, ?_⟩
    · rw [g1, animTick_tgtCpu]
    · rw [g2, animTick_tgtRam]
    · rw [g3, animTick_tgtNet]
    · rw [List.length_cons, pow_succ]
      have := q1
      rw [animTick_tgtCpu, ecc] at this
      rw [this]; ring
    · rw [List.length_cons, pow_succ]
      have := q2
      rw [animTick_tgtRam, ecr] at this
      rw [this]; ring
    · rw [List.length_cons, pow_succ]
      have := q3
      rw [animTick_tgtNet, ecn] at this
      rw [this]; ring

/-- C4: with targets held constant in range and currents starting in range,
N consecutive animation ticks with no intervening decode leave
`current - target = (initial - target) * 0.85^N` exactly (the re-clamp never
alters the in-range smoothed value), and after 30 ticks the remaining gap is
below 1% of full scale (1 cpu point, 1/100 of a ratio). -/
theorem C4_smoothing_convergence (es : List StepIn) (s : LoopState)
    (hc1 : 0 ≤ s.ui.curCpu) (hc2 : s.ui.curCpu ≤ 100)
    (ht1 : 0 ≤ s.ui.tgtCpu) (ht2 : s.ui.tgtCpu ≤ 100)
    (hr1 : 0 ≤ s.ui.curRam) (hr2 : s.ui.curRam ≤ 1)
    (hs1 : 0 ≤ s.ui.tgtRam) (hs2 : s.ui.tgtRam ≤ 1)
    (hn1 : 0 ≤ s.ui.curNet) (hn2 : s.ui.curNet ≤ 1)
    (hu1 : 0 ≤ s.ui.tgtNet) (hu2 : s.ui.tgtNet ≤ 1) :
    (runTicks es s).ui.curCpu - s.ui.tgtCpu = (s.ui.curCpu - s.ui.tgtCpu) * (17/20) ^ es.length ∧
    (runTicks es s).ui.curRam - s.ui.tgtRam = (s.ui.curRam - s.ui.tgtRam) * (17/20) ^ es.length ∧
    (runTicks es s).ui.curNet - s.ui.tgtNet = (s.ui.curNet - s.ui.tgtNet) * (17/20) ^ es.length ∧
    (es.length = 30 →
      |(runTicks es s).ui.curCpu - s.ui.tgtCpu| < 1 ∧
      |(runTicks es s).ui.curRam - s.ui.tgtRam| < 1/100 ∧
      |(runTicks es s).ui.curNet - s.ui.tgtNet| < 1/100) := by
  obtain ⟨-, -, -, -, -, -, q1, q2, q3⟩ :=
    runTicks_gap es s hc1 hc2 ht1 ht2 hr1 hr2 hs1 hs2 hn1 hn2 hu1 hu2
  refine ⟨q1, q2, q3, ?_⟩
  intro h30
  have hpow : ((17:ℚ)/20) ^ (30:ℕ) < 1/100 := by norm_num
  have hpow0 : (0:ℚ) ≤ (17/20) ^ (30:ℕ) := by positivity
  rw [h30] at q1 q2 q3
  constructor
  · rw [q1, abs_mul, abs_of_nonneg hpow0]
    have hb : |s.ui.curCpu - s.ui.tgtCpu| ≤ 100 := abs_le.mpr ⟨by linarith, by linarith⟩
    calc |s.ui.curCpu - s.ui.tgtCpu| * (17/20) ^ (30:ℕ)
        ≤ 100 * (17/20) ^ (30:ℕ) := by
          exact mul_le_mul_of_nonneg_right hb hpow0
      _ < 1 := by norm_num
  constructor
  · rw [q2, abs_mul, abs_of_nonneg hpow0]
    have hb : |s.ui.curRam - s.ui.tgtRam| ≤ 1 := abs_le.mpr ⟨by linarith, by linarith⟩
    calc |s.ui.curRam - s.ui.tgtRam| * (17/20) ^ (30:ℕ)
        ≤ 1 * (17/20) ^ (30:ℕ) := mul_le_mul_of_nonneg_right hb hpow0
      _ < 1/100 := by norm_num
  · rw [q3, abs_mul, abs_of_nonneg hpow0]
    have hb : |s.ui.curNet - s.ui.tgtNet| ≤ 1 := abs_le.mpr ⟨by linarith, by linarith⟩
    calc |s.ui.curNet - s.ui.tgtNet| * (17/20) ^ (30:ℕ)
        ≤ 1 * (17/20) ^ (30:ℕ) := mul_le_mul_of_nonneg_right hb hpow0
      _ < 1/100 := by norm_num

/-- A concrete in-range starting state for the smoothing witness. -/
def c4state : LoopState :=
  { initState with ui := { initUI with curCpu := 10, tgtCpu := 20, tgtRam := 1, curNet := 1 } }

/-- A concrete animation-tick input for the smoothing witness. -/
def c4e : StepIn := ⟨100, [], 0, 0, 0, 0, 0⟩

/-- Witness for C4 at a concrete state and a single tick. -/
theorem C4_smoothing_convergence_witness :
    (0 ≤ c4state.ui.curCpu ∧ c4state.ui.curCpu ≤ 100 ∧
     0 ≤ c4state.ui.tgtCpu ∧ c4state.ui.tgtCpu ≤ 100) ∧
    ((runTicks [c4e] c4state).ui.curCpu - c4state.ui.tgtCpu
        = (c4state.ui.curCpu - c4state.ui.tgtCpu) * (17/20) ^ ([c4e] : List StepIn).length ∧
     (runTicks [c4e] c4state).ui.curRam - c4state.ui.tgtRam
        = (c4state.ui.curRam - c4state.ui.tgtRam) * (17/20) ^ ([c4e] : List StepIn).length ∧
     (runTicks [c4e] c4state).ui.curNet - c4state.ui.tgtNet
        = (c4state.ui.curNet - c4state.ui.tgtNet) * (17/20) ^ ([c4e] : List StepIn).length ∧
     (([c4e] : List StepIn).length = 30 →
       |(runTicks [c4e] c4state).ui.curCpu - c4state.ui.tgtCpu| < 1 ∧
       |(runTicks [c4e] c4state).ui.curRam - c4state.ui.tgtRam| < 1/100 ∧
       |(runTicks [c4e] c4state).ui.curNet - c4state.ui.tgtNet| < 1/100)) :=
  ⟨⟨by norm_num [c4state, initState, initUI], by norm_num [c4state, initState, initUI],
    by norm_num [c4state, initState, initUI], by norm_num [c4state, initState, initUI]⟩,
   C4_smoothing_convergence [c4e] c4state
    (by norm_num [c4state, initState, initUI]) (by norm_num [c4state, initState, initUI])
    (by norm_num [c4state, initState, initUI]) (by norm_num [c4state, initState, initUI])
    (by norm_num [c4state, initState, initUI]) (by norm_num [c4state, initState, initUI])
    (by norm_num [c4state, initState, initUI]) (by norm_num [c4state, initState, initUI])
    (by norm_num [c4state, initState, initUI]) (by norm_num [c4state, initState, initUI])
    (by norm_num [c4state, initState, initUI]) (by norm_num [c4state, initState, initUI])⟩

lemma maxQ_zero_le (x : ℚ) : 0 ≤ maxQ 0 x ∧ x ≤ maxQ 0 x := by
  unfold maxQ; split_ifs <;> constructor <;> linarith

/-- Characterization of the network auto-scale block of `updateFromJsonLine`
(lines 161-166) when both stored net rates are known after the sticky merge:
jump to the total if it exceeds the scale, derive the ratio, then decay the
scale by 0.996 with floor 1. -/
lemma applyMsg_net_present (m : Msg) (s : LoopState) (rx tx : ℚ)
    (hrx : (stickyData m s.data).net_rx = some rx)
    (htx : (stickyData m s.data).net_tx = some tx) :
    (applyMsg m s).ui.netMaxKBs =
      (if (if s.ui.netMaxKBs < maxQ 0 (rx + tx) then maxQ 0 (rx + tx) else s.ui.netMaxKBs) * (249/250) < 1
       then 1
       else (if s.ui.netMaxKBs < maxQ 0 (rx + tx) then maxQ 0 (rx + tx) else s.ui.netMaxKBs) * (249/250)) ∧
    (applyMsg m s).ui.tgtNet =
      (if 0 < (if s.ui.netMaxKBs < maxQ 0 (rx + tx) then maxQ 0 (rx + tx) else s.ui.netMaxKBs)
       then maxQ 0 (rx + tx) / (if s.ui.netMaxKBs < maxQ 0 (rx + tx) then maxQ 0 (rx + tx) else s.ui.netMaxKBs)
       else 0) := by
  simp only [applyMsg]
  rw [hrx, htx]
  simp only [apply_ite UIState.netMaxKBs, apply_ite UIState.tgtNet, ite_self]
  exact ⟨trivial, trivial⟩

/-- The net auto-scale and net target are untouched when either stored net
rate is still NaN after the sticky merge. -/
lemma applyMsg_net_absent (m : Msg) (s : LoopState)
    (h : (stickyData m s.data).net_rx = none ∨ (stickyData m s.data).net_tx = none) :
    (applyMsg m s).ui.netMaxKBs = s.ui.netMaxKBs ∧
    (applyMsg m s).ui.tgtNet = s.ui.tgtNet := by
  rcases hrx : (stickyData m s.data).net_rx with _ | rx <;>
    rcases htx : (stickyData m s.data).net_tx with _ | tx <;>
    [skip; skip; skip; simp [hrx, htx] at h] <;>
    · simp only [applyMsg]
      rw [hrx, htx]
      simp only [apply_ite UIState.netMaxKBs, apply_ite UIState.tgtNet, ite_self]
      exact ⟨trivial, trivial⟩

/-- C5: on every successful decode with both net rates known, the auto-scale
first jumps to `total = max(0, rx+tx)` when exceeded, the net target becomes
`total / scale` (0 when the scale is not positive), the scale then decays by
0.996 floored at 1; consequently the stored scale ends at least 1 and the
net target lies in `[0,1]`. -/
theorem C5_net_autoscale (m : Msg) (s : LoopState) (rx tx : ℚ)
    (hrx : (stickyData m s.data).net_rx = some rx)
    (htx : (stickyData m s.data).net_tx = some tx) :
    (applyMsg m s).ui.netMaxKBs =
      (if (if s.ui.netMaxKBs < maxQ 0 (rx + tx) then maxQ 0 (rx + tx) else s.ui.netMaxKBs) * (249/250) < 1
       then 1
       else (if s.ui.netMaxKBs < maxQ 0 (rx + tx) then maxQ 0 (rx + tx) else s.ui.netMaxKBs) * (249/250)) ∧
    (applyMsg m s).ui.tgtNet =
      (if 0 < (if s.ui.netMaxKBs < maxQ 0 (rx + tx) then maxQ 0 (rx + tx) else s.ui.netMaxKBs)
       then maxQ 0 (rx + tx) / (if s.ui.netMaxKBs < maxQ 0 (rx + tx) then maxQ 0 (rx + tx) else s.ui.netMaxKBs)
       else 0) ∧
    1 ≤ (applyMsg m s).ui.netMaxKBs ∧
    0 ≤ (applyMsg m s).ui.tgtNet ∧ (applyMsg m s).ui.tgtNet ≤ 1 := by
  obtain ⟨e1, e2⟩ := applyMsg_net_present m s rx tx hrx htx
  have htot := maxQ_zero_le (rx + tx)
  refine ⟨e1, e2, ?_, ?_, ?_⟩
  · rw [e1]; split_ifs <;> linarith
  · rw [e2]
    split_ifs <;> first
      | exact div_nonneg htot.1 (by linarith)
      | norm_num
  · rw [e2]
    split_ifs <;> first
      | exact div_le_one_of_le₀ (by linarith) (by linarith)
      | norm_num

/-- A concrete message carrying both net rates, for the C5 witness. -/
def c5m : Msg := { net_rx := some 10, net_tx := some 2 }

/-- Witness for C5: decoding `{"net":{"rx":10,"tx":2}}` in the initial state. -/
theorem C5_net_autoscale_witness :
    (stickyData c5m initState.data).net_rx = some 10 ∧
    (stickyData c5m initState.data).net_tx = some 2 ∧
    ((applyMsg c5m initState).ui.netMaxKBs =
      (if (if initState.ui.netMaxKBs < maxQ 0 (10 + 2) then maxQ 0 (10 + 2) else initState.ui.netMaxKBs) * (249/250) < 1
       then 1
       else (if initState.ui.netMaxKBs < maxQ 0 (10 + 2) then maxQ 0 (10 + 2) else initState.ui.netMaxKBs) * (249/250)) ∧
     (applyMsg c5m initState).ui.tgtNet =
      (if 0 < (if initState.ui.netMaxKBs < maxQ 0 (10 + 2) then maxQ 0 (10 + 2) else initState.ui.netMaxKBs)
       then maxQ 0 (10 + 2) / (if initState.ui.netMaxKBs < maxQ 0 (10 + 2) then maxQ 0 (10 + 2) else initState.ui.netMaxKBs)
       else 0) ∧
     1 ≤ (applyMsg c5m initState).ui.netMaxKBs ∧
     0 ≤ (applyMsg c5m initState).ui.tgtNet ∧ (applyMsg c5m initState).ui.tgtNet ≤ 1) :=
  ⟨rfl, rfl, C5_net_autoscale c5m initState 10 2 rfl rfl⟩

/-- The cpu target after a decode: re-derived from the merged snapshot when
`cpu >= 0`, otherwise kept. -/
lemma applyMsg_tgtCpu (m : Msg) (s : LoopState) :
    (applyMsg m s).ui.tgtCpu =
      (if 0 ≤ (stickyData m s.data).cpu then (stickyData m s.data).cpu else s.ui.tgtCpu) := by
  rcases hrx : (stickyData m s.data).net_rx with _ | rx <;>
    rcases htx : (stickyData m s.data).net_tx with _ | tx <;>
    · simp only [applyMsg]
      rw [hrx, htx]
      simp only [apply_ite UIState.tgtCpu, ite_self]

/-- The ram-ratio target after a decode: re-derived from the merged snapshot
when `ram > 0` and `ram_used >= 0`, otherwise kept. -/
lemma applyMsg_tgtRam (m : Msg) (s : LoopState) :
    (applyMsg m s).ui.tgtRam =
      (if 0 < (stickyData m s.data).ram ∧ 0 ≤ (stickyData m s.data).ram_used
       then ((stickyData m s.data).ram_used : ℚ) / ((stickyData m s.data).ram : ℚ)
       else s.ui.tgtRam) := by
  rcases hrx : (stickyData m s.data).net_rx with _ | rx <;>
    rcases htx : (stickyData m s.data).net_tx with _ | tx <;>
    · simp only [applyMsg]
      rw [hrx, htx]
      simp only [apply_ite UIState.tgtRam, ite_self]

/-- The invariant that actually holds on every reachable state: the animated
current values stay in range, the net target stays in `[0,1]`, the auto-scale
never drops below 1, and the cpu / ram targets stay nonnegative (they are NOT
clamped above). -/
def InvC7 (s : LoopState) : Prop :=
  0 ≤ s.ui.curCpu ∧ s.ui.curCpu ≤ 100 ∧
  0 ≤ s.ui.curRam ∧ s.ui.curRam ≤ 1 ∧
  0 ≤ s.ui.curNet ∧ s.ui.curNet ≤ 1 ∧
  0 ≤ s.ui.tgtNet ∧ s.ui.tgtNet ≤ 1 ∧
  1 ≤ s.ui.netMaxKBs ∧
  0 ≤ s.ui.tgtCpu ∧ 0 ≤ s.ui.tgtRam

lemma decodeOne_InvC7 (n : ℕ) (om : Option Msg) (s : LoopState) (h : InvC7 s) :
    InvC7 (decodeOne n om s) := by
  cases om with
  | none => simpa [decodeOne, updateFromJsonLine] using h
  | some m =>
    obtain ⟨h1, h2, h3, h4, h5, h6, h7, h8, h9, h10, h11⟩ := h
    have hui : (decodeOne n (some m) s).ui = (applyMsg m s).ui := by
      simp [decodeOne, updateFromJsonLine]
    unfold InvC7
    rw [hui, applyMsg_curCpu, applyMsg_curRam, applyMsg_curNet, applyMsg_tgtCpu, applyMsg_tgtRam]
    refine ⟨h1, h2, h3, h4, h5, h6, ?_, ?_, ?_, ?_, ?_⟩
    · rcases hrx : (stickyData m s.data).net_rx with _ | rx
      · exact ((applyMsg_net_absent m s (Or.inl hrx)).2).symm ▸ h7
      · rcases htx : (stickyData m s.data).net_tx with _ | tx
        · exact ((applyMsg_net_absent m s (Or.inr htx)).2).symm ▸ h7
        · exact (C5_net_autoscale m s rx tx hrx htx).2.2.2.1
    · rcases hrx : (stickyData m s.data).net_rx with _ | rx
      · exact ((applyMsg_net_absent m s (Or.inl hrx)).2).symm ▸ h8
      · rcases htx : (stickyData m s.data).net_tx with _ | tx
        · exact ((applyMsg_net_absent m s (Or.inr htx)).2).symm ▸ h8
        · exact (C5_net_autoscale m s rx tx hrx htx).2.2.2.2
    · rcases hrx : (stickyData m s.data).net_rx with _ | rx
      · exact ((applyMsg_net_absent m s (Or.inl hrx)).1).symm ▸ h9
      · rcases htx : (stickyData m s.data).net_tx with _ | tx
        · exact ((applyMsg_net_absent m s (Or.inr htx)).1).symm ▸ h9
        · exact (C5_net_autoscale m s rx tx hrx htx).2.2.1
    · split_ifs with hc
      · exact hc
      · exact h10
    · split_ifs with hc
      · exact div_nonneg (by exact_mod_cast hc.2) (by exact_mod_cast le_of_lt hc.1)
      · exact h11

lemma decodePhase_InvC7 (n : ℕ) (ms : List (Option Msg)) (s : LoopState) (h : InvC7 s) :
    InvC7 (decodePhase n ms s) := by
  induction ms generalizing s with
  | nil => exact h
  | cons m ms ih =>
    have : decodePhase n (m :: ms) s = decodePhase n ms (decodeOne n m s) := by
      simp [decodePhase, List.foldl_cons]
    rw [this]
    exact ih _ (decodeOne_InvC7 n m s h)

lemma staleSleep_InvC7 (n : ℕ) (s : LoopState) (h : InvC7 s) : InvC7 (staleSleep n s) := by
  unfold InvC7 at h ⊢
  simpa using h

lemma animTick_InvC7 (e : StepIn) (s : LoopState) (h : InvC7 s) : InvC7 (animTick e s) := by
  obtain ⟨h1, h2, h3, h4, h5, h6, h7, h8, h9, h10, h11⟩ := h
  unfold InvC7
  rw [animTick_curCpu, animTick_curRam, animTick_curNet, animTick_tgtCpu, animTick_tgtRam,
    animTick_tgtNet, animTick_netMax]
  have c1 := clampQ_mem 0 100 (s.ui.curCpu + (s.ui.tgtCpu - s.ui.curCpu) * (3/20)) (by norm_num)
  have c2 := clampQ_mem 0 1 (s.ui.curRam + (s.ui.tgtRam - s.ui.curRam) * (3/20)) (by norm_num)
  have c3 := clampQ_mem 0 1 (s.ui.curNet + (s.ui.tgtNet - s.ui.curNet) * (3/20)) (by norm_num)
  exact ⟨c1.1, c1.2, c2.1, c2.2, c3.1, c3.2, h7, h8, h9, h10, h11⟩

lemma loopStep_InvC7 (e : StepIn) (s : LoopState) (h : InvC7 s) : InvC7 (loopStep e s) := by
  simp only [loopStep]
  have hd := decodePhase_InvC7 e.now e.msgs s h
  split_ifs with hz hg
  · exact hd
  · exact staleSleep_InvC7 _ _ hd
  · refine animTick_InvC7 _ _ ?_
    have := staleSleep_InvC7 e.now _ hd
    unfold InvC7 at this ⊢
    simpa using this

/-- C7 (amended): from the initial state, after every sequence of decodes and
animation ticks, all CURRENT fields satisfy their nominal ranges, the net
target stays in `[0,1]` and the auto-scale stays at least 1, while the cpu
and ram TARGETS are only guaranteed nonnegative - a message with `cpu > 100`
or `ram_used > ram` pushes them above the nominal range (see the
counterexample). -/
theorem C7_invariant_reachable (es : List StepIn) : InvC7 (runSteps es initState) := by
  have hinit : InvC7 initState := by
    unfold InvC7 initState initUI
    norm_num
  induction es using List.reverseRecOn with
  | nil => exact hinit
  | append_singleton es e ih =>
    have : runSteps (es ++ [e]) initState = loopStep e (runSteps es initState) := by
      simp [runSteps, List.foldl_append]
    rw [this]
    exact loopStep_InvC7 e _ ih

/-- Counterexample to C7 as stated: decoding the message `{"cpu":150}` in the
initial state leaves the cpu target at 150, outside `[0,100]`. -/
theorem C7_counterexample :
    (applyMsg { cpu := some 150 } initState).ui.tgtCpu = 150 ∧
    ¬ (applyMsg { cpu := some 150 } initState).ui.tgtCpu ≤ 100 := by
  have h : (applyMsg { cpu := some 150 } initState).ui.tgtCpu = 150 := by
    rw [applyMsg_tgtCpu]
    norm_num [stickyData, initState, initData]
  constructor
  · exact h
  · rw [h]; norm_num

/-- C8: a line that fails JSON parsing makes `updateFromJsonLine` return
failure before any state is touched (the error only goes to the Serial
diagnostic channel), and the surrounding read loop then changes nothing
either - in particular `lastDataMs` is not refreshed. -/
theorem C8_parse_failure_changes_nothing :
    (∀ s : LoopState, updateFromJsonLine none s = (false, s)) ∧
    (∀ (n : ℕ) (s : LoopState), decodeOne n none s = s) := by
  exact ⟨fun s => rfl, fun n s => rfl⟩

/-- C10: on a tick whose smoothed load is at least 0.22, the sleep machine
stage unconditionally resets the low-load timestamp and the sleep
sub-animation phase to 0, and when the data is stale (last decode more than
4000 ms ago) the sleeping flag is left as it was - the reset is not
conditioned on actually waking. -/
theorem C10_high_load_resets_phase (now : ℕ) (s : LoopState)
    (h : ¬ tickLoad s.ui < 11/50) :
    (sleepStage now s).ui.lowLoadSince = 0 ∧
    (sleepStage now s).ui.sleepStep = 0 ∧
    (4000 < now - s.lastDataMs → (sleepStage now s).ui.tamaSleeping = s.ui.tamaSleeping) := by
  obtain ⟨e1, e2, e3⟩ := sleepStage_high now s h
  refine ⟨e1, e2, fun hst => ?_⟩
  rw [e3, if_neg (by omega)]

/-- A concrete stale sleeping state under full load, for the C10 witness. -/
def c10state : LoopState :=
  { initState with
    ui := { initUI with curCpu := 100, tamaSleeping := true, lowLoadSince := 77, sleepStep := 2 }
    lastDataMs := 10 }

/-- Witness for C10 at time 9000: load is 0.5, data is stale, and the stage
resets the timestamp and phase while leaving the character asleep. -/
theorem C10_high_load_resets_phase_witness :
    ¬ tickLoad c10state.ui < 11/50 ∧
    ((sleepStage 9000 c10state).ui.lowLoadSince = 0 ∧
     (sleepStage 9000 c10state).ui.sleepStep = 0 ∧
     (4000 < 9000 - c10state.lastDataMs →
       (sleepStage 9000 c10state).ui.tamaSleeping = c10state.ui.tamaSleeping)) :=
  ⟨by norm_num [tickLoad, c10state, initState, initUI],
   C10_high_load_resets_phase 9000 c10state
     (by norm_num [tickLoad, c10state, initState, initUI])⟩

/-- The mood band the spec sentence of C6 describes: computed from the
SMOOTHED current animation values, happy strictly below 0.42, neutral up to
and including 0.68, sad above. -/
def specMoodSmoothed (u : UIState) : Mood :=
  let load := (1/2) * (u.curCpu / 100) + (1/2) * u.curRam
  if load < 21/50 then Mood.happy
  else if load ≤ 17/25 then Mood.neutral
  else Mood.sad

/-- The amended mood derivation: computed from the RAW snapshot (each absent
contributor counting 0), happy below 0.42, neutral in `[0.42, 0.68)`, sad
from 0.68 up (the mouth test is `load < 0.68`, so exactly 0.68 is sad). -/
def specMoodRaw (d : DataState) : Mood :=
  let c := if 0 ≤ d.cpu then d.cpu / 100 else 0
  let r := if 0 < d.ram ∧ 0 ≤ d.ram_used then (d.ram_used : ℚ) / (d.ram : ℚ) else 0
  let load := (1/2) * c + (1/2) * r
  if load < 21/50 then Mood.happy
  else if load < 17/25 then Mood.neutral
  else Mood.sad

/-- C6 (amended): the awake face expression drawn by `drawInfoLines` is the
mood band of the RAW snapshot load, not of the smoothed values. -/
theorem C6_mood_from_raw_snapshot (d : DataState) : faceMood d = specMoodRaw d := by
  unfold faceMood specMoodRaw
  have h : loadRaw d =
      (1/2) * (if 0 ≤ d.cpu then d.cpu / 100 else 0) +
      (1/2) * (if 0 < d.ram ∧ 0 ≤ d.ram_used then (d.ram_used : ℚ) / (d.ram : ℚ) else 0) := by
    unfold loadRaw; ring
  rw [h]

@[simp] lemma applyMsg_data (m : Msg) (s : LoopState) : (applyMsg m s).data = stickyData m s.data := rfl

/-- A `loop` pass before any data was ever received just decodes (and would
paint the waiting screen). -/
lemma loopStep_eq_wait (e : StepIn) (s : LoopState)
    (h1 : (decodePhase e.now e.msgs s).lastDataMs = 0) :
    loopStep e s = decodePhase e.now e.msgs s := by
  simp only [loopStep]
  rw [if_pos h1]

/-- A `loop` pass inside the 60 ms animation gate stops after the staleness
check. -/
lemma loopStep_eq_gate (e : StepIn) (s : LoopState)
    (h1 : (decodePhase e.now e.msgs s).lastDataMs ≠ 0)
    (h2 : e.now - (decodePhase e.now e.msgs s).lastAnim < 60) :
    loopStep e s = staleSleep e.now (decodePhase e.now e.msgs s) := by
  simp only [loopStep]
  rw [if_neg h1, if_pos (by simpa using h2)]

/-- A `loop` pass past the 60 ms gate runs the full animation tick. -/
lemma loopStep_eq_tick (e : StepIn) (s : LoopState)
    (h1 : (decodePhase e.now e.msgs s).lastDataMs ≠ 0)
    (h2 : ¬ e.now - (decodePhase e.now e.msgs s).lastAnim < 60) :
    loopStep e s =
      animTick e { staleSleep e.now (decodePhase e.now e.msgs s) with lastAnim := e.now } := by
  simp only [loopStep]
  rw [if_neg h1, if_neg (by simpa using h2)]

/-- The message `{"cpu":90}` used by the C6 counterexample. -/
def c6m : Msg := { cpu := some 90 }

/-- A loop pass at 100 ms that decodes `c6m` and runs one tick. -/
def c6e : StepIn := ⟨100, [some c6m], 0, 0, 0, 0, 0⟩

/-- Counterexample to C6 as stated: right after decoding `{"cpu":90}` and one
tick, the renderer picks the NEUTRAL face (raw load 0.45) while the mood band
of the smoothed values (load 0.0675) would be HAPPY. -/
theorem C6_counterexample :
    faceMood (loopStep c6e initState).data ≠ specMoodSmoothed (loopStep c6e initState).ui := by
  have hdec : decodePhase c6e.now c6e.msgs initState =
      { applyMsg c6m initState with lastDataMs := 100 } := by
    simp [c6e, decodePhase, decodeOne, updateFromJsonLine]
  have hstep : loopStep c6e initState =
      animTick c6e { staleSleep c6e.now (decodePhase c6e.now c6e.msgs initState) with lastAnim := c6e.now } := by
    refine loopStep_eq_tick c6e initState (by rw [hdec]; norm_num) ?_
    rw [hdec]
    show ¬ c6e.now - (applyMsg c6m initState).lastAnim < 60
    rw [applyMsg_lastAnim]
    norm_num [c6e, initState]
  have htgt : (applyMsg c6m initState).ui.tgtCpu = 90 := by
    rw [applyMsg_tgtCpu]
    norm_num [stickyData, c6m, initState, initData]
  have hcc : (applyMsg c6m initState).ui.curCpu = 0 := by
    rw [applyMsg_curCpu]; norm_num [initState, initUI]
  have htr : (applyMsg c6m initState).ui.tgtRam = 0 := by
    rw [applyMsg_tgtRam]
    norm_num [stickyData, c6m, initState, initData, initUI]
  have hcr : (applyMsg c6m initState).ui.curRam = 0 := by
    rw [applyMsg_curRam]; norm_num [initState, initUI]
  have hdata : (loopStep c6e initState).data = stickyData c6m initData := by
    rw [hstep, animTick_data]
    show (staleSleep c6e.now (decodePhase c6e.now c6e.msgs initState)).data = stickyData c6m initData
    rw [staleSleep_data, hdec]
    rfl
  have hcur : (loopStep c6e initState).ui.curCpu = 27/2 := by
    rw [hstep, animTick_curCpu]
    simp only [hdec, staleSleep_curCpu, staleSleep_tgtCpu]
    rw [show ({ applyMsg c6m initState with lastDataMs := 100 } : LoopState).ui.curCpu
          = (applyMsg c6m initState).ui.curCpu from rfl,
        show ({ applyMsg c6m initState with lastDataMs := 100 } : LoopState).ui.tgtCpu
          = (applyMsg c6m initState).ui.tgtCpu from rfl,
        htgt, hcc]
    norm_num [clampQ]
  have hram : (loopStep c6e initState).ui.curRam = 0 := by
    rw [hstep, animTick_curRam]
    simp only [hdec, staleSleep_curRam, staleSleep_tgtRam]
    rw [show ({ applyMsg c6m initState with lastDataMs := 100 } : LoopState).ui.curRam
          = (applyMsg c6m initState).ui.curRam from rfl,
        show ({ applyMsg c6m initState with lastDataMs := 100 } : LoopState).ui.tgtRam
          = (applyMsg c6m initState).ui.tgtRam from rfl,
        htr, hcr]
    norm_num [clampQ]
  have h1 : faceMood (loopStep c6e initState).data = Mood.neutral := by
    rw [hdata]
    norm_num [faceMood, loadRaw, stickyData, c6m, initData]
  have h2 : specMoodSmoothed (loopStep c6e initState).ui = Mood.happy := by
    unfold specMoodSmoothed
    rw [hcur, hram]
    norm_num
  rw [h1, h2]
  simp

/-- Decoding `{}` leaves the snapshot itself unchanged (sticky defaults). -/
lemma stickyData_empty (d : DataState) : stickyData Msg.empty d = d := rfl

lemma applyMsg_appName (m : Msg) (s : LoopState) :
    (applyMsg m s).appName = match m.app with | some a => a.trim | none => s.appName := rfl

lemma applyMsg_hasData (m : Msg) (s : LoopState) : (applyMsg m s).ui.hasData = true := rfl

lemma applyMsg_tickerText (m : Msg) (s : LoopState) :
    (applyMsg m s).ui.tickerText = tickerOf (stickyData m s.data) := rfl

/-- C3 (amended): absent keys keep the prior snapshot values, and decoding
`{}` leaves the whole MetricSnapshot, the app name, the animated current
values and the sleep flag unchanged - but it is NOT a complete no-op: it sets
the has-data flag, rebuilds the ticker from the (unchanged) snapshot,
re-derives the cpu / ram targets from the snapshot, and, when both stored net
rates are known from earlier messages, re-runs the auto-scale update so that
`netAutoScaleMax` decays again by 0.996. -/
theorem C3_sticky_semantics :
    (∀ (m : Msg) (s : LoopState),
      (m.cpu = none → (applyMsg m s).data.cpu = s.data.cpu) ∧
      (m.ram = none → (applyMsg m s).data.ram = s.data.ram) ∧
      (m.ram_used = none → (applyMsg m s).data.ram_used = s.data.ram_used) ∧
      (m.temp = none → (applyMsg m s).data.tempC = s.data.tempC) ∧
      (m.host = none → (applyMsg m s).data.host = s.data.host) ∧
      (m.time = none → (applyMsg m s).data.epoch = s.data.epoch) ∧
      (m.uptime = none → (applyMsg m s).data.uptime = s.data.uptime) ∧
      (m.disk_free = none → (applyMsg m s).data.diskFreeKB = s.data.diskFreeKB) ∧
      (m.net_rx = none → (applyMsg m s).data.net_rx = s.data.net_rx) ∧
      (m.net_tx = none → (applyMsg m s).data.net_tx = s.data.net_tx) ∧
      (m.app = none → (applyMsg m s).appName = s.appName)) ∧
    (∀ s : LoopState,
      (applyMsg Msg.empty s).data = s.data ∧
      (applyMsg Msg.empty s).appName = s.appName ∧
      (applyMsg Msg.empty s).ui.curCpu = s.ui.curCpu ∧
      (applyMsg Msg.empty s).ui.curRam = s.ui.curRam ∧
      (applyMsg Msg.empty s).ui.curNet = s.ui.curNet ∧
      (applyMsg Msg.empty s).ui.tamaSleeping = s.ui.tamaSleeping ∧
      (applyMsg Msg.empty s).ui.hasData = true ∧
      (applyMsg Msg.empty s).ui.tickerText = tickerOf s.data ∧
      (0 ≤ s.data.cpu → (applyMsg Msg.empty s).ui.tgtCpu = s.data.cpu) ∧
      (s.data.cpu < 0 → (applyMsg Msg.empty s).ui.tgtCpu = s.ui.tgtCpu) ∧
      ((s.data.net_rx = none ∨ s.data.net_tx = none) →
        (applyMsg Msg.empty s).ui.netMaxKBs = s.ui.netMaxKBs ∧
        (applyMsg Msg.empty s).ui.tgtNet = s.ui.tgtNet) ∧
      (∀ rx tx, s.data.net_rx = some rx → s.data.net_tx = some tx →
        (applyMsg Msg.empty s).ui.netMaxKBs =
          (if (if s.ui.netMaxKBs < maxQ 0 (rx + tx) then maxQ 0 (rx + tx) else s.ui.netMaxKBs) * (249/250) < 1
           then 1
           else (if s.ui.netMaxKBs < maxQ 0 (rx + tx) then maxQ 0 (rx + tx) else s.ui.netMaxKBs) * (249/250)))) := by
  constructor
  · intro m s
    refine ⟨?_, ?_, ?_, ?_, ?_, ?_, ?_, ?_, ?_, ?_, ?_⟩ <;> intro h
    · simp only [applyMsg_data, stickyData, h, Option.getD_none]
    · simp only [applyMsg_data, stickyData, h, Option.getD_none]
    · simp only [applyMsg_data, stickyData, h, Option.getD_none]
    · simp only [applyMsg_data, stickyData, h]
    · simp only [applyMsg_data, stickyData, h, Option.getD_none]
    · simp only [applyMsg_data, stickyData, h, Option.getD_none]
    · simp only [applyMsg_data, stickyData, h, Option.getD_none]
    · simp only [applyMsg_data, stickyData, h, Option.getD_none]
    · simp only [applyMsg_data, stickyData, h]
    · simp only [applyMsg_data, stickyData, h]
    · rw [applyMsg_appName, h]
  · intro s
    refine ⟨?_, ?_, applyMsg_curCpu _ _, applyMsg_curRam _ _, applyMsg_curNet _ _,
      applyMsg_sleeping _ _, applyMsg_hasData _ _, ?_, ?_, ?_, ?_, ?_⟩
    · rw [applyMsg_data, stickyData_empty]
    · rfl
    · rw [applyMsg_tickerText, stickyData_empty]
    · intro h
      rw [applyMsg_tgtCpu, stickyData_empty, if_pos h]
    · intro h
      rw [applyMsg_tgtCpu, stickyData_empty, if_neg (by linarith)]
    · intro h
      refine applyMsg_net_absent Msg.empty s ?_
      rw [stickyData_empty]
      exact h
    · intro rx tx hrx htx
      exact (applyMsg_net_present Msg.empty s rx tx
        (by rw [stickyData_empty]; exact hrx) (by rw [stickyData_empty]; exact htx)).1

/-- First net message of the C3 counterexample: `{"net":{"rx":10,"tx":0}}`. -/
def c3m1 : Msg := { net_rx := some 10, net_tx := some 0 }
/-- Second net message of the C3 counterexample. -/
def c3m2 : Msg := { net_rx := some 1, net_tx := some 0 }
/-- Reachable state with stale net rates 1 and 0 and auto-scale 9.92016. -/
def c3s : LoopState := applyMsg c3m2 (applyMsg c3m1 initState)

/-- Counterexample to C3 as stated: decoding the empty object in `c3s` does
NOT leave the state unchanged - the net auto-scale decays from 62001/6250 to
15438249/1562500 because the sticky net rates are still known. -/
theorem C3_counterexample :
    (applyMsg Msg.empty c3s).ui.netMaxKBs ≠ c3s.ui.netMaxKBs := by
  have hs1 : (applyMsg c3m1 initState).ui.netMaxKBs = 249/25 := by
    rw [(applyMsg_net_present c3m1 initState 10 0 rfl rfl).1]
    norm_num [maxQ, initState, initUI]
  have hs2 : c3s.ui.netMaxKBs = 62001/6250 := by
    rw [show c3s.ui.netMaxKBs = (applyMsg c3m2 (applyMsg c3m1 initState)).ui.netMaxKBs from rfl,
      (applyMsg_net_present c3m2 (applyMsg c3m1 initState) 1 0 rfl rfl).1, hs1]
    norm_num [maxQ]
  have hs3 : (applyMsg Msg.empty c3s).ui.netMaxKBs = 15438249/1562500 := by
    rw [(applyMsg_net_present Msg.empty c3s 1 0 rfl rfl).1, hs2]
    norm_num [maxQ]
  rw [hs3, hs2]
  norm_num

/-- Witness for C3 at concrete inputs: an absent-cpu message keeps the cpu
field, and the empty object keeps targets and auto-scale in the initial state
(whose net rates are still NaN). -/
theorem C3_sticky_semantics_witness :
    (initState.data.cpu < 0 ∧ (applyMsg Msg.empty initState).ui.tgtCpu = initState.ui.tgtCpu) ∧
    ((initState.data.net_rx = none ∨ initState.data.net_tx = none) ∧
      (applyMsg Msg.empty initState).ui.netMaxKBs = initState.ui.netMaxKBs ∧
      (applyMsg Msg.empty initState).ui.tgtNet = initState.ui.tgtNet) ∧
    (c3m1.cpu = none ∧ (applyMsg c3m1 initState).data.cpu = initState.data.cpu) :=
  ⟨⟨by norm_num [initState, initData],
    (C3_sticky_semantics.2 initState).2.2.2.2.2.2.2.2.2.1 (by norm_num [initState, initData])⟩,
   ⟨Or.inl rfl,
    (C3_sticky_semantics.2 initState).2.2.2.2.2.2.2.2.2.2.1 (Or.inl rfl)⟩,
   ⟨rfl, (C3_sticky_semantics.1 c3m1 initState).1 rfl⟩⟩

/-- The available ticker fields in source order, each carrying its label;
`tempPre` is the prefix put before the temperature entry (the spec sentence
of C9 says two spaces, the code writes one). -/
def specTickerFields (tempPre : String) (d : DataState) : List String :=
  (match d.tempC with | some q => [tempPre ++ toString (intOfQ q) ++ "C"] | none => []) ++
  (if 0 ≤ d.cpu then ["  CPU " ++ toString (intOfQ d.cpu) ++ "%"] else []) ++
  (if 0 < d.ram ∧ 0 ≤ d.ram_used then ["  RAM " ++ toString ((d.ram - d.ram_used).tdiv 1024) ++ "MB"] else []) ++
  (if 0 ≤ d.diskFreeKB then ["  DISK " ++ fmtDisk d.diskFreeKB] else []) ++
  (if 0 ≤ d.uptime then ["  UPT " ++ fmtUptime d.uptime] else [])

/-- The ticker text exactly as the claim words it: every field, temperature
included, prefixed by TWO spaces, trailing padding appended, placeholder when
no field is available. -/
def specTickerClaim (d : DataState) : String :=
  (if specTickerFields "  " d = [] then " Smart Monitor"
   else String.join (specTickerFields "  " d)) ++ "   "

/-- The amended ticker text: like the claim but with the temperature entry
prefixed by ONE space, as the code writes it. -/
def specTickerAmended (d : DataState) : String :=
  (if specTickerFields " " d = [] then " Smart Monitor"
   else String.join (specTickerFields " " d)) ++ "   "

lemma lenSp : (" " : String).length = 1 := rfl
lemma lenC : ("C" : String).length = 1 := rfl
lemma lenCpu : ("  CPU " : String).length = 6 := rfl
lemma lenPct : ("%" : String).length = 1 := rfl
lemma lenRam : ("  RAM " : String).length = 6 := rfl
lemma lenMB : ("MB" : String).length = 2 := rfl
lemma lenDisk : ("  DISK " : String).length = 7 := rfl
lemma lenUpt : ("  UPT " : String).length = 6 := rfl

/-- C9 (amended): after every successful decode the rebuilt ticker equals the
concatenation of the available labelled fields - temperature prefixed by ONE
space, the other fields by two - with the trailing padding appended, falling
back to the non-empty " Smart Monitor" placeholder when no field is
available; the ticker is never the empty string. -/
theorem C9_ticker_amended (d : DataState) : tickerOf d = specTickerAmended d ∧ tickerOf d ≠ "" := by
  refine ⟨?_, ?_⟩
  case refine_2 =>
    intro h
    have hlen : (tickerOf d).length = (tickerBody d).length + 3 := by
      simp [tickerOf, show ("   " : String).length = 3 from rfl]
    rw [h] at hlen
    simp at hlen
  case refine_1 => ?_
  unfold tickerOf tickerBody specTickerAmended specTickerFields
  cases h0 : d.tempC <;>
    by_cases h1 : 0 ≤ d.cpu <;>
    by_cases h2 : 0 < d.ram ∧ 0 ≤ d.ram_used <;>
    by_cases h3 : 0 ≤ d.diskFreeKB <;>
    by_cases h4 : 0 ≤ d.uptime <;>
    simp [-String.reduceAppend, h1, h2, h3, h4, String.join, String.append_assoc,
      lenSp, lenC, lenCpu, lenPct, lenRam, lenMB, lenDisk, lenUpt]

/-- A snapshot with only the temperature available, for the C9 counterexample. -/
def c9d : DataState := { initData with tempC := some 25 }

/-- Counterexample to C9 as stated: with only the temperature available the
code produces " 25C   " (ONE space before the temperature), not the
two-space-prefixed "  25C   " the claim describes. -/
theorem C9_counterexample : tickerOf c9d ≠ specTickerClaim c9d := by decide

@[simp] lemma smoothStage_lastAnim (s : LoopState) : (smoothStage s).lastAnim = s.lastAnim := rfl
@[simp] lemma tickerStage_lastAnim (s : LoopState) : (tickerStage s).lastAnim = s.lastAnim := rfl
@[simp] lemma blinkStage_lastAnim (n : ℕ) (s : LoopState) : (blinkStage n s).lastAnim = s.lastAnim := rfl
@[simp] lemma mouthStage_lastAnim (n : ℕ) (s : LoopState) : (mouthStage n s).lastAnim = s.lastAnim := by
  simp only [mouthStage]; split_ifs <;> rfl
@[simp] lemma winkStage_lastAnim (n a b : ℕ) (s : LoopState) : (winkStage n a b s).lastAnim = s.lastAnim := rfl
@[simp] lemma sweatStage_lastAnim (n a b : ℕ) (s : LoopState) : (sweatStage n a b s).lastAnim = s.lastAnim := rfl
@[simp] lemma bobStage_lastAnim (b : ℤ) (s : LoopState) : (bobStage b s).lastAnim = s.lastAnim := rfl
@[simp] lemma sleepStage_lastAnim (n : ℕ) (s : LoopState) : (sleepStage n s).lastAnim = s.lastAnim := by
  simp only [sleepStage]; split_ifs <;> rfl
@[simp] lemma zStage_lastAnim (n : ℕ) (s : LoopState) : (zStage n s).lastAnim = s.lastAnim := by
  simp only [zStage]; split_ifs <;> rfl

/-- The part of the animation tick that runs before the sleep state machine. -/
def preSleep (e : StepIn) (s : LoopState) : LoopState :=
  bobStage e.bob (sweatStage e.now e.rSweat e.rSweatSch
    (winkStage e.now e.rWink e.rWinkSch (mouthStage e.now (blinkStage e.now
      (tickerStage (smoothStage s))))))

lemma animTick_eq (e : StepIn) (s : LoopState) :
    animTick e s = zStage e.now (sleepStage e.now (preSleep e s)) := rfl

@[simp] lemma preSleep_lls (e : StepIn) (s : LoopState) :
    (preSleep e s).ui.lowLoadSince = s.ui.lowLoadSince := by simp [preSleep]
@[simp] lemma preSleep_sleeping (e : StepIn) (s : LoopState) :
    (preSleep e s).ui.tamaSleeping = s.ui.tamaSleeping := by simp [preSleep]
@[simp] lemma preSleep_lastDataMs (e : StepIn) (s : LoopState) :
    (preSleep e s).lastDataMs = s.lastDataMs := by simp [preSleep]
@[simp] lemma preSleep_data (e : StepIn) (s : LoopState) :
    (preSleep e s).data = s.data := by simp [preSleep]

lemma preSleep_tickLoad (e : StepIn) (s : LoopState) :
    tickLoad (preSleep e s).ui = tickLoad (smoothStage s).ui := by
  unfold tickLoad
  simp [preSleep]

lemma animTick_lastDataMs (e : StepIn) (s : LoopState) :
    (animTick e s).lastDataMs = s.lastDataMs := by simp [animTick]

lemma animTick_lastAnim (e : StepIn) (s : LoopState) :
    (animTick e s).lastAnim = s.lastAnim := by simp [animTick]

/-- The sleep machine plus render sub-animation on a low-load tick keeps a
sleeping character asleep. -/
lemma sleepZ_low_keeps (now : ℕ) (X : LoopState) (h : tickLoad X.ui < 11/50)
    (hs : X.ui.tamaSleeping = true) :
    (zStage now (sleepStage now X)).ui.tamaSleeping = true := by
  rw [zStage_sleeping]
  exact sleepStage_keeps_sleeping now X h hs

/-- The sleep machine on a low-load tick with a running timer older than
9000 ms ends sleeping, whatever the prior flag. -/
lemma sleepZ_low_trigger (now : ℕ) (X : LoopState) (h : tickLoad X.ui < 11/50)
    (h0 : X.ui.lowLoadSince ≠ 0) (h9 : 9000 < now - X.ui.lowLoadSince) :
    (zStage now (sleepStage now X)).ui.tamaSleeping = true := by
  rw [zStage_sleeping]
  cases hs : X.ui.tamaSleeping with
  | true => exact sleepStage_keeps_sleeping now X h hs
  | false =>
    rw [(sleepStage_low_running now X h h0).2.1, if_pos ⟨by rw [hs]; simp, h9⟩]

/-- The sleep machine on a low-load tick preserves a running timer. -/
lemma sleepZ_low_lls (now : ℕ) (X : LoopState) (h : tickLoad X.ui < 11/50)
    (h0 : X.ui.lowLoadSince ≠ 0) :
    (zStage now (sleepStage now X)).ui.lowLoadSince = X.ui.lowLoadSince := by
  rw [zStage_lls]
  exact (sleepStage_low_running now X h h0).1

/-- The sleep machine on a low-load tick with an unset timer starts it at the
current time and leaves the sleeping flag alone. -/
lemma sleepZ_low_fresh (now : ℕ) (X : LoopState) (h : tickLoad X.ui < 11/50)
    (h0 : X.ui.lowLoadSince = 0) :
    (zStage now (sleepStage now X)).ui.lowLoadSince = now ∧
    (zStage now (sleepStage now X)).ui.tamaSleeping = X.ui.tamaSleeping := by
  rw [zStage_lls, zStage_sleeping]
  exact ⟨(sleepStage_low_fresh now X h h0).1, (sleepStage_low_fresh now X h h0).2.1⟩

/-- The sleep machine on a low-load tick with a running timer at most 9000 ms
old leaves the sleeping flag alone. -/
lemma sleepZ_low_no_trigger (now : ℕ) (X : LoopState) (h : tickLoad X.ui < 11/50)
    (h0 : X.ui.lowLoadSince ≠ 0) (h9 : ¬ 9000 < now - X.ui.lowLoadSince) :
    (zStage now (sleepStage now X)).ui.tamaSleeping = X.ui.tamaSleeping := by
  rw [zStage_sleeping, (sleepStage_low_running now X h h0).2.1,
    if_neg (by rintro ⟨-, hx⟩; exact h9 hx)]

lemma ticks_true_iff (e : StepIn) (s : LoopState) :
    ticks e s = true ↔
      ((decodePhase e.now e.msgs s).lastDataMs ≠ 0 ∧
       60 ≤ e.now - (decodePhase e.now e.msgs s).lastAnim) := by
  simp [ticks]

lemma ticks_false_cases (e : StepIn) (s : LoopState) (h : ticks e s = false) :
    (decodePhase e.now e.msgs s).lastDataMs = 0 ∨
      ¬ 60 ≤ e.now - (decodePhase e.now e.msgs s).lastAnim := by
  by_cases h1 : (decodePhase e.now e.msgs s).lastDataMs = 0
  · exact Or.inl h1
  · refine Or.inr fun h2 => ?_
    rw [(ticks_true_iff e s).mpr ⟨h1, h2⟩] at h
    cases h

lemma loopStep_tick_shape (e : StepIn) (s : LoopState) (h : ticks e s = true) :
    loopStep e s =
      animTick e { staleSleep e.now (decodePhase e.now e.msgs s) with lastAnim := e.now } := by
  obtain ⟨h1, h2⟩ := (ticks_true_iff e s).mp h
  exact loopStep_eq_tick e s h1 (by omega)

lemma loopStep_no_tick_lls (e : StepIn) (s : LoopState) (h : ticks e s = false) :
    (loopStep e s).ui.lowLoadSince = s.ui.lowLoadSince := by
  rcases ticks_false_cases e s h with h1 | h1
  · rw [loopStep_eq_wait e s h1, decodePhase_lls]
  · by_cases hz : (decodePhase e.now e.msgs s).lastDataMs = 0
    · rw [loopStep_eq_wait e s hz, decodePhase_lls]
    · rw [loopStep_eq_gate e s hz (by omega), staleSleep_lls, decodePhase_lls]

lemma loopStep_no_tick_keep (e : StepIn) (s : LoopState) (h : ticks e s = false)
    (hs : s.ui.tamaSleeping = true) : (loopStep e s).ui.tamaSleeping = true := by
  rcases ticks_false_cases e s h with h1 | h1
  · rw [loopStep_eq_wait e s h1, decodePhase_sleeping]; exact hs
  · by_cases hz : (decodePhase e.now e.msgs s).lastDataMs = 0
    · rw [loopStep_eq_wait e s hz, decodePhase_sleeping]; exact hs
    · rw [loopStep_eq_gate e s hz (by omega), staleSleep_sleeping]
      split_ifs
      · rfl
      · rw [decodePhase_sleeping]; exact hs

lemma stepTickLoad_eq_pre (e : StepIn) (s : LoopState) :
    tickLoad (preSleep e
      ({ staleSleep e.now (decodePhase e.now e.msgs s) with lastAnim := e.now } : LoopState)).ui
      = stepTickLoad e s := by
  rw [preSleep_tickLoad]
  rfl

lemma loopStep_tick_low_lls (e : StepIn) (s : LoopState) (ht : ticks e s = true)
    (hlow : stepTickLoad e s < 11/50) (h0 : s.ui.lowLoadSince ≠ 0) :
    (loopStep e s).ui.lowLoadSince = s.ui.lowLoadSince := by
  rw [loopStep_tick_shape e s ht, animTick_eq]
  rw [sleepZ_low_lls e.now _ (by rw [stepTickLoad_eq_pre]; exact hlow)
    (by simp [decodePhase_lls]; exact h0)]
  simp [decodePhase_lls]

lemma loopStep_tick_low_start (e : StepIn) (s : LoopState) (ht : ticks e s = true)
    (hlow : stepTickLoad e s < 11/50) (h0 : s.ui.lowLoadSince = 0) :
    (loopStep e s).ui.lowLoadSince = e.now ∧
    (loopStep e s).ui.tamaSleeping =
      (staleSleep e.now (decodePhase e.now e.msgs s)).ui.tamaSleeping := by
  rw [loopStep_tick_shape e s ht, animTick_eq]
  obtain ⟨a, b⟩ := sleepZ_low_fresh e.now _ (by rw [stepTickLoad_eq_pre]; exact hlow)
    (by simp [decodePhase_lls]; exact h0)
  refine ⟨a, ?_⟩
  rw [b]
  simp

lemma loopStep_tick_low_keep (e : StepIn) (s : LoopState) (ht : ticks e s = true)
    (hlow : stepTickLoad e s < 11/50) (hs : s.ui.tamaSleeping = true) :
    (loopStep e s).ui.tamaSleeping = true := by
  rw [loopStep_tick_shape e s ht, animTick_eq]
  refine sleepZ_low_keeps e.now _ (by rw [stepTickLoad_eq_pre]; exact hlow) ?_
  rw [preSleep_sleeping]
  show ({ staleSleep e.now (decodePhase e.now e.msgs s) with lastAnim := e.now } : LoopState).ui.tamaSleeping = true
  rw [show ({ staleSleep e.now (decodePhase e.now e.msgs s) with lastAnim := e.now } : LoopState).ui
      = (staleSleep e.now (decodePhase e.now e.msgs s)).ui from rfl]
  rw [staleSleep_sleeping]
  split_ifs
  · rfl
  · rw [decodePhase_sleeping]; exact hs

lemma loopStep_tick_low_trigger (e : StepIn) (s : LoopState) (ht : ticks e s = true)
    (hlow : stepTickLoad e s < 11/50) (h0 : s.ui.lowLoadSince ≠ 0)
    (h9 : 9000 < e.now - s.ui.lowLoadSince) :
    (loopStep e s).ui.tamaSleeping = true := by
  rw [loopStep_tick_shape e s ht, animTick_eq]
  refine sleepZ_low_trigger e.now _ (by rw [stepTickLoad_eq_pre]; exact hlow)
    (by simp [decodePhase_lls]; exact h0) ?_
  have : (preSleep e
      ({ staleSleep e.now (decodePhase e.now e.msgs s) with lastAnim := e.now } : LoopState)).ui.lowLoadSince
      = s.ui.lowLoadSince := by simp [decodePhase_lls]
  rw [this]
  exact h9

lemma loopStep_tick_low_no_trigger (e : StepIn) (s : LoopState) (ht : ticks e s = true)
    (hlow : stepTickLoad e s < 11/50) (h0 : s.ui.lowLoadSince ≠ 0)
    (h9 : ¬ 9000 < e.now - s.ui.lowLoadSince) :
    (loopStep e s).ui.tamaSleeping =
      (staleSleep e.now (decodePhase e.now e.msgs s)).ui.tamaSleeping := by
  rw [loopStep_tick_shape e s ht, animTick_eq]
  have hpls : (preSleep e
      ({ staleSleep e.now (decodePhase e.now e.msgs s) with lastAnim := e.now } : LoopState)).ui.lowLoadSince
      = s.ui.lowLoadSince := by simp [decodePhase_lls]
  rw [sleepZ_low_no_trigger e.now _ (by rw [stepTickLoad_eq_pre]; exact hlow)
    (by rw [hpls]; exact h0) (by rw [hpls]; exact h9)]
  simp

lemma runSteps_cons (e : StepIn) (es : List StepIn) (s : LoopState) :
    runSteps (e :: es) s = runSteps es (loopStep e s) := by
  simp [runSteps, List.foldl_cons]

/-- While every performed tick stays below the sleep threshold, a sleeping
character never wakes (decodes never touch the flag and the staleness check
only sets it). -/
lemma low_run_keeps (es : List StepIn) (s : LoopState) (hlow : lowThroughout es s)
    (hs : s.ui.tamaSleeping = true) : (runSteps es s).ui.tamaSleeping = true := by
  induction es generalizing s with
  | nil => exact hs
  | cons e es ih =>
    rw [runSteps_cons]
    obtain ⟨hhead, htail⟩ := hlow
    cases hticks : ticks e s with
    | false => exact ih _ htail (loopStep_no_tick_keep e s hticks hs)
    | true => exact ih _ htail (loopStep_tick_low_keep e s hticks (hhead hticks) hs)

/-- While every performed tick stays below the sleep threshold, a running
low-load timestamp is preserved, and as soon as some performed tick happens
strictly more than 9000 ms after it, the character is asleep at the end of
the run. -/
lemma low_run_lls_trigger (es : List StepIn) (s : LoopState) (L : ℕ)
    (hlow : lowThroughout es s) (hL : s.ui.lowLoadSince = L) (hne : L ≠ 0) :
    (runSteps es s).ui.lowLoadSince = L ∧
    ((∃ t ∈ tickTimes es s, 9000 < t - L) → (runSteps es s).ui.tamaSleeping = true) := by
  induction es generalizing s with
  | nil =>
    refine ⟨hL, ?_⟩
    rintro ⟨t, ht, -⟩
    simp [tickTimes] at ht
  | cons e es ih =>
    obtain ⟨hhead, htail⟩ := hlow
    have hstep_lls : (loopStep e s).ui.lowLoadSince = L := by
      cases hticks : ticks e s with
      | false => rw [loopStep_no_tick_lls e s hticks]; exact hL
      | true =>
        rw [loopStep_tick_low_lls e s hticks (hhead hticks) (by rw [hL]; exact hne)]
        exact hL
    obtain ⟨g1, g2⟩ := ih (loopStep e s) htail hstep_lls
    rw [runSteps_cons]
    refine ⟨g1, ?_⟩
    rintro ⟨t, hmem, h9⟩
    rw [show tickTimes (e :: es) s =
        (if ticks e s then [e.now] else []) ++ tickTimes es (loopStep e s) from rfl] at hmem
    rcases List.mem_append.mp hmem with hin | hin
    · cases hticks : ticks e s with
      | false => rw [hticks] at hin; simp at hin
      | true =>
        rw [hticks] at hin
        simp at hin
        subst hin
        have hsl : (loopStep e s).ui.tamaSleeping = true :=
          loopStep_tick_low_trigger e s hticks (hhead hticks)
            (by rw [hL]; exact hne) (by rw [hL]; exact h9)
        exact low_run_keeps es (loopStep e s) htail hsl
    · exact g2 ⟨t, hin, h9⟩

/-- C1 (amended): the sleep state machine obeys: (a) from Awake with the
low-load timestamp unset, if every performed tick computes smoothed load
below 0.22 and the first such tick happens at a nonzero time t1, then after
any later performed tick STRICTLY more than 9000 ms past t1 the character is
and stays Sleeping (the code tests now - lowLoadSince > 9000, not >= 9000);
the timestamp resets to unset on every tick with load at least 0.22;
(b) once a message has been decoded, a loop pass finding the last successful
decode more than 4000 ms old ends with the character Sleeping regardless of
load; (c) a tick with load at least 0.22 wakes the character exactly when
the last decode is at most 4000 ms old - while stale, Sleeping persists. -/
theorem C1_sleep_state_machine :
    (∀ (e : StepIn) (es : List StepIn) (s : LoopState),
      s.ui.tamaSleeping = false →
      s.ui.lowLoadSince = 0 →
      ticks e s = true →
      e.now ≠ 0 →
      lowThroughout (e :: es) s →
      (∃ t ∈ tickTimes es (loopStep e s), 9000 < t - e.now) →
      (runSteps (e :: es) s).ui.tamaSleeping = true) ∧
    (∀ (now : ℕ) (s : LoopState), ¬ tickLoad s.ui < 11/50 →
      (sleepStage now s).ui.lowLoadSince = 0) ∧
    (∀ (e : StepIn) (s : LoopState),
      (decodePhase e.now e.msgs s).lastDataMs ≠ 0 →
      4000 < e.now - (decodePhase e.now e.msgs s).lastDataMs →
      (loopStep e s).ui.tamaSleeping = true) ∧
    (∀ (now : ℕ) (s : LoopState), ¬ tickLoad s.ui < 11/50 →
      (sleepStage now s).ui.tamaSleeping =
        (if now - s.lastDataMs ≤ 4000 then false else s.ui.tamaSleeping)) := by
  refine ⟨?_, ?_, ?_, ?_⟩
  · intro e es s hawake hunset hticks hnz hlow hex
    obtain ⟨hhead, htail⟩ := hlow
    have hstart := loopStep_tick_low_start e s hticks (hhead hticks) hunset
    rw [runSteps_cons]
    exact (low_run_lls_trigger es (loopStep e s) e.now htail hstart.1 hnz).2 hex
  · exact fun now s h => (sleepStage_high now s h).1
  · intro e s h1 h4
    cases hticks : ticks e s with
    | false =>
      rcases ticks_false_cases e s hticks with hz | hg
      · exact absurd hz h1
      · rw [loopStep_eq_gate e s h1 (by omega), staleSleep_sleeping, if_pos h4]
    | true =>
      rw [loopStep_tick_shape e s hticks, animTick_eq]
      have hXs : (preSleep e
          ({ staleSleep e.now (decodePhase e.now e.msgs s) with lastAnim := e.now } : LoopState)).ui.tamaSleeping
          = true := by
        rw [preSleep_sleeping,
          show ({ staleSleep e.now (decodePhase e.now e.msgs s) with lastAnim := e.now } : LoopState).ui
            = (staleSleep e.now (decodePhase e.now e.msgs s)).ui from rfl,
          staleSleep_sleeping, if_pos h4]
      by_cases hl : tickLoad (preSleep e
          ({ staleSleep e.now (decodePhase e.now e.msgs s) with lastAnim := e.now } : LoopState)).ui < 11/50
      · exact sleepZ_low_keeps e.now _ hl hXs
      · rw [zStage_sleeping, (sleepStage_high e.now _ hl).2.2]
        have hXld : (preSleep e
            ({ staleSleep e.now (decodePhase e.now e.msgs s) with lastAnim := e.now } : LoopState)).lastDataMs
            = (decodePhase e.now e.msgs s).lastDataMs := by simp
        rw [if_neg (by rw [hXld]; omega), hXs]
  · exact fun now s h => (sleepStage_high now s h).2.2

/-- Facts about one loop pass that decodes a single empty object on an idle
state (all gauges and targets at zero, snapshot still at power-up values):
the pass ticks, its smoothed load is zero, and the idle shape is preserved. -/
lemma idle_step_facts (e : StepIn) (s : LoopState)
    (hm : e.msgs = [some Msg.empty]) (hnz : e.now ≠ 0) (hla : 60 ≤ e.now - s.lastAnim)
    (hd : s.data = initData)
    (hc : s.ui.curCpu = 0) (hr : s.ui.curRam = 0)
    (htc : s.ui.tgtCpu = 0) (htr : s.ui.tgtRam = 0) :
    ticks e s = true ∧
    stepTickLoad e s = 0 ∧
    (loopStep e s).data = initData ∧
    (loopStep e s).ui.curCpu = 0 ∧ (loopStep e s).ui.curRam = 0 ∧
    (loopStep e s).ui.tgtCpu = 0 ∧ (loopStep e s).ui.tgtRam = 0 ∧
    (loopStep e s).lastDataMs = e.now ∧ (loopStep e s).lastAnim = e.now ∧
    (staleSleep e.now (decodePhase e.now e.msgs s)).ui.tamaSleeping = s.ui.tamaSleeping := by
  have hdec : decodePhase e.now e.msgs s = { applyMsg Msg.empty s with lastDataMs := e.now } := by
    rw [hm]; simp [decodePhase, decodeOne, updateFromJsonLine]
  have hld : (decodePhase e.now e.msgs s).lastDataMs = e.now := by rw [hdec]
  have hla2 : (decodePhase e.now e.msgs s).lastAnim = s.lastAnim := by
    rw [hdec]
    show (applyMsg Msg.empty s).lastAnim = s.lastAnim
    rw [applyMsg_lastAnim]
  have hticks : ticks e s = true :=
    (ticks_true_iff e s).mpr ⟨by rw [hld]; exact hnz, by rw [hla2]; exact hla⟩
  have hdta : (decodePhase e.now e.msgs s).data = initData := by
    rw [hdec]
    show (applyMsg Msg.empty s).data = initData
    rw [applyMsg_data, stickyData_empty, hd]
  have hdc : (decodePhase e.now e.msgs s).ui.curCpu = 0 := by
    rw [hdec]
    show (applyMsg Msg.empty s).ui.curCpu = 0
    rw [applyMsg_curCpu]; exact hc
  have hdr : (decodePhase e.now e.msgs s).ui.curRam = 0 := by
    rw [hdec]
    show (applyMsg Msg.empty s).ui.curRam = 0
    rw [applyMsg_curRam]; exact hr
  have hdtc : (decodePhase e.now e.msgs s).ui.tgtCpu = 0 := by
    rw [hdec]
    show (applyMsg Msg.empty s).ui.tgtCpu = 0
    rw [applyMsg_tgtCpu, stickyData_empty, hd, if_neg (by norm_num [initData])]
    exact htc
  have hdtr : (decodePhase e.now e.msgs s).ui.tgtRam = 0 := by
    rw [hdec]
    show (applyMsg Msg.empty s).ui.tgtRam = 0
    rw [applyMsg_tgtRam, stickyData_empty, hd, if_neg (by norm_num [initData])]
    exact htr
  have hload : stepTickLoad e s = 0 := by
    unfold stepTickLoad tickLoad
    rw [smoothStage_curCpu, smoothStage_curRam, staleSleep_curCpu, staleSleep_curRam,
      staleSleep_tgtCpu, staleSleep_tgtRam, hdc, hdr, hdtc, hdtr]
    norm_num [clampQ]
  have hshape := loopStep_tick_shape e s hticks
  have hstale : (staleSleep e.now (decodePhase e.now e.msgs s)).ui.tamaSleeping
      = s.ui.tamaSleeping := by
    rw [staleSleep_sleeping, if_neg (by rw [hld]; omega), decodePhase_sleeping]
  refine ⟨hticks, hload, ?_, ?_, ?_, ?_, ?_, ?_, ?_, hstale⟩
  · rw [hshape, animTick_data]
    show (staleSleep e.now (decodePhase e.now e.msgs s)).data = initData
    rw [staleSleep_data, hdta]
  · rw [hshape, animTick_curCpu]
    show clampQ 0 100 ((staleSleep e.now (decodePhase e.now e.msgs s)).ui.curCpu +
      ((staleSleep e.now (decodePhase e.now e.msgs s)).ui.tgtCpu -
        (staleSleep e.now (decodePhase e.now e.msgs s)).ui.curCpu) * (3/20)) = 0
    rw [staleSleep_curCpu, staleSleep_tgtCpu, hdc, hdtc]
    norm_num [clampQ]
  · rw [hshape, animTick_curRam]
    show clampQ 0 1 ((staleSleep e.now (decodePhase e.now e.msgs s)).ui.curRam +
      ((staleSleep e.now (decodePhase e.now e.msgs s)).ui.tgtRam -
        (staleSleep e.now (decodePhase e.now e.msgs s)).ui.curRam) * (3/20)) = 0
    rw [staleSleep_curRam, staleSleep_tgtRam, hdr, hdtr]
    norm_num [clampQ]
  · rw [hshape, animTick_tgtCpu]
    show (staleSleep e.now (decodePhase e.now e.msgs s)).ui.tgtCpu = 0
    rw [staleSleep_tgtCpu, hdtc]
  · rw [hshape, animTick_tgtRam]
    show (staleSleep e.now (decodePhase e.now e.msgs s)).ui.tgtRam = 0
    rw [staleSleep_tgtRam, hdtr]
  · rw [hshape, animTick_lastDataMs]
    show (staleSleep e.now (decodePhase e.now e.msgs s)).lastDataMs = e.now
    rw [staleSleep_lastDataMs, hld]
  · rw [hshape, animTick_lastAnim]

/-- First pass of the C1 traces: decode an empty object and tick at 100 ms. -/
def c1e1 : StepIn := ⟨100, [some Msg.empty], 0, 0, 0, 0, 0⟩
/-- Second pass of the C1 counterexample, exactly 9000 ms after the first. -/
def c1e2 : StepIn := ⟨9100, [some Msg.empty], 0, 0, 0, 0, 0⟩

/-- Counterexample to C1 as stated: two performed ticks 9000 ms apart, both
with smoothed load 0 (< 0.22), starting Awake with fresh data throughout -
exactly 9000 ms of continuous low load have elapsed, yet the character is
still Awake, because the code requires now - lowLoadSince > 9000 strictly. -/
theorem C1_counterexample :
    ticks c1e1 initState = true ∧ stepTickLoad c1e1 initState < 11/50 ∧
    ticks c1e2 (loopStep c1e1 initState) = true ∧
    stepTickLoad c1e2 (loopStep c1e1 initState) < 11/50 ∧
    initState.ui.tamaSleeping = false ∧
    9000 ≤ c1e2.now - c1e1.now ∧
    (runSteps [c1e1, c1e2] initState).ui.tamaSleeping = false := by
  obtain ⟨t1, l1, d1, c1, r1, tc1, tr1, ld1, la1, st1⟩ :=
    idle_step_facts c1e1 initState rfl (by decide) (by decide) rfl rfl rfl rfl rfl
  obtain ⟨t2, l2, d2, c2, r2, tc2, tr2, ld2, la2, st2⟩ :=
    idle_step_facts c1e2 (loopStep c1e1 initState) rfl (by decide)
      (by rw [la1]; decide) d1 c1 r1 tc1 tr1
  have hstart := loopStep_tick_low_start c1e1 initState t1 (by rw [l1]; norm_num) rfl
  have hsl1 : (loopStep c1e1 initState).ui.tamaSleeping = false := by
    rw [hstart.2, st1]
    rfl
  have hlls1 : (loopStep c1e1 initState).ui.lowLoadSince = 100 := hstart.1
  have hfinal : (runSteps [c1e1, c1e2] initState).ui.tamaSleeping = false := by
    rw [runSteps_cons, runSteps_cons]
    show (loopStep c1e2 (loopStep c1e1 initState)).ui.tamaSleeping = false
    rw [loopStep_tick_low_no_trigger c1e2 (loopStep c1e1 initState) t2
      (by rw [l2]; norm_num) (by rw [hlls1]; decide) (by rw [hlls1]; decide), st2, hsl1]
  exact ⟨t1, by rw [l1]; norm_num, t2, by rw [l2]; norm_num, rfl, by decide, hfinal⟩

/-- Second pass of the C1 witness, 9100 ms after the first tick. -/
def c1w2 : StepIn := ⟨9200, [some Msg.empty], 0, 0, 0, 0, 0⟩

/-- Witness for C1 part (a): on the concrete two-tick trace with the second
tick 9100 ms after the first, the character ends Sleeping. -/
theorem C1_sleep_state_machine_witness :
    initState.ui.tamaSleeping = false ∧
    initState.ui.lowLoadSince = 0 ∧
    ticks c1e1 initState = true ∧
    c1e1.now ≠ 0 ∧
    lowThroughout [c1e1, c1w2] initState ∧
    (∃ t ∈ tickTimes [c1w2] (loopStep c1e1 initState), 9000 < t - c1e1.now) ∧
    (runSteps [c1e1, c1w2] initState).ui.tamaSleeping = true := by
  obtain ⟨t1, l1, d1, c1, r1, tc1, tr1, ld1, la1, st1⟩ :=
    idle_step_facts c1e1 initState rfl (by decide) (by decide) rfl rfl rfl rfl rfl
  obtain ⟨t2, l2, d2, c2, r2, tc2, tr2, ld2, la2, st2⟩ :=
    idle_step_facts c1w2 (loopStep c1e1 initState) rfl (by decide)
      (by rw [la1]; decide) d1 c1 r1 tc1 tr1
  have hlow : lowThroughout [c1e1, c1w2] initState :=
    ⟨fun _ => by rw [l1]; norm_num, fun _ => by rw [l2]; norm_num, trivial⟩
  have hex : ∃ t ∈ tickTimes [c1w2] (loopStep c1e1 initState), 9000 < t - c1e1.now := by
    refine ⟨9200, ?_, by decide⟩
    rw [show tickTimes [c1w2] (loopStep c1e1 initState) =
        (if ticks c1w2 (loopStep c1e1 initState) then [c1w2.now] else []) ++ [] from rfl, t2]
    simp [c1w2]
  exact ⟨rfl, rfl, t1, by decide, hlow, hex,
    C1_sleep_state_machine.1 c1e1 [c1w2] initState rfl rfl t1 (by decide) hlow hex⟩
